import Mathlib

/-!
# Verification of the nginx CRD to Gateway API conversion engine

This file gives a shallow embedding, in Lean 4, of the VirtualServer /
TransportServer to Gateway API conversion engine of the ingress2gateway
nginx provider, and proves (or refutes) the specified properties of that
engine.

Conventions of the embedding:

* Go functions that append to the shared `*[]notifications.Notification`
  slice are modelled as pure functions returning, next to their value, the
  list of notifications they append, in append order; callers concatenate
  those lists in the order of the corresponding Go calls.
* Go `nil`-able pointer fields are modelled as `Option`; Go slices as
  `List`; Go maps as association lists with a `mapSet` write operation
  mirroring `m[k] = v` (overwrite on key collision) and `find?`-based
  lookup.
* Go `int` is modelled as `Int`, `uint16`/ports as `Nat`.
* Structures and functions keep the source names except where Lean
  reserves the word (`namespace_`, `variable_`, `return_`).
-/

namespace I2GW

/-- Modelled from the spec: notification severity, `Severity ∈ {Info, Warning, Error}`
(spec §3); the notifications package is not among the provided sources. -/
inductive MessageType where
  | info
  | warning
  | error
deriving DecidableEq

/-- Modelled from the spec: the source-object reference carried by a notification
(spec §3), reduced to the identifying namespace/name pair. -/
structure ObjectRef where
  namespace_ : String
  name : String
deriving DecidableEq

/-- Modelled from the spec: a notification record `{severity, message, sourceObject}`
(spec §3); append-only, aggregated into one ordered sequence. -/
structure Notification where
  type : MessageType
  message : String
  source : Option ObjectRef := none
deriving DecidableEq

/-- Modelled from the spec: the notifications package constructor
`notifications.NewNotification(messageType, message, obj)`. -/
def NewNotification (t : MessageType) (msg : String) (src : Option ObjectRef) : Notification :=
  { type := t, message := msg, source := src }

/-- `types.NamespacedName` of the Kubernetes API machinery. -/
structure NamespacedName where
  namespace_ : String
  name : String
deriving DecidableEq

/-! ## Input data model: the nginx v1 configuration types

Only the fields read by the conversion engine are modelled. -/

structure UpstreamTLS where
  enable : Bool := false
deriving DecidableEq

/-- `nginxv1.Header` -/
structure Header where
  name : String := ""
  value : String := ""
deriving DecidableEq

/-- `nginxv1.AddHeader` (a Header plus the `always` flag) -/
structure AddHeader where
  name : String := ""
  value : String := ""
  always : Bool := false
deriving DecidableEq

/-- `nginxv1.ProxyRequestHeaders` -/
structure ProxyRequestHeaders where
  pass : Option Bool := none
  set : List Header := []
deriving DecidableEq

/-- `nginxv1.ProxyResponseHeaders` -/
structure ProxyResponseHeaders where
  hide : List String := []
  pass : List String := []
  ignore : List String := []
  add : List AddHeader := []
deriving DecidableEq

/-- `nginxv1.ActionProxy` -/
structure ActionProxy where
  upstream : String := ""
  rewritePath : String := ""
  requestHeaders : Option ProxyRequestHeaders := none
  responseHeaders : Option ProxyResponseHeaders := none
deriving DecidableEq

/-- `nginxv1.ActionRedirect` -/
structure ActionRedirect where
  url : String := ""
  code : Int := 0
deriving DecidableEq

/-- `nginxv1.ActionReturn` (only the code is read by the converter) -/
structure ActionReturn where
  code : Int := 0
deriving DecidableEq

/-- `nginxv1.Action`: a struct of optional variants; the converter dispatches on
the first populated field in the order Pass, Redirect, Return, Proxy. -/
structure Action where
  pass : String := ""
  redirect : Option ActionRedirect := none
  return_ : Option ActionReturn := none
  proxy : Option ActionProxy := none
deriving DecidableEq

/-- `nginxv1.Condition` -/
structure Condition where
  header : String := ""
  cookie : String := ""
  argument : String := ""
  variable_ : String := ""
  value : String := ""
deriving DecidableEq

/-- `nginxv1.Split` -/
structure Split where
  weight : Int := 0
  action : Option Action := none
deriving DecidableEq

/-- `nginxv1.Match` -/
structure Match where
  conditions : List Condition := []
  action : Option Action := none
  splits : List Split := []
deriving DecidableEq

/-- `nginxv1.Route` -/
structure Route where
  path : String := ""
  route : String := ""
  matches_ : List Match := []
  action : Option Action := none
  splits : List Split := []
deriving DecidableEq

/-- `nginxv1.Upstream`; every field inspected by the upstream converter is present. -/
structure Upstream where
  name : String := ""
  service : String := ""
  subselector : List (String × String) := []
  useClusterIP : Bool := false
  port : Nat := 0
  lbMethod : String := ""
  failTimeout : String := ""
  maxFails : Option Int := none
  maxConns : Option Int := none
  keepalive : Option Int := none
  proxyConnectTimeout : String := ""
  proxyReadTimeout : String := ""
  proxySendTimeout : String := ""
  proxyNextUpstream : String := ""
  proxyNextUpstreamTimeout : String := ""
  proxyNextUpstreamTries : Int := 0
  clientMaxBodySize : String := ""
  tls : UpstreamTLS := {}
  healthCheck : Option Unit := none
  slowStart : String := ""
  queue : Option Unit := none
  proxyBuffering : Option Bool := none
  proxyBufferSize : String := ""
  ntlm : Bool := false
  type : String := ""
  backup : String := ""
  backupPort : Option Nat := none
  sessionCookie : Option Unit := none
deriving DecidableEq

/-- `nginxv1.TLSRedirect` -/
structure TLSRedirect where
  enable : Bool := false
  code : Option Int := none
deriving DecidableEq

/-- `nginxv1.TLS` -/
structure TLS where
  secret : String := ""
  redirect : Option TLSRedirect := none
deriving DecidableEq

/-- `nginxv1.VirtualServerListener` -/
structure VirtualServerListener where
  http : String := ""
  https : String := ""
deriving DecidableEq

/-- `nginxv1.ExternalDNS` (only the enable flag is read) -/
structure ExternalDNS where
  enable : Bool := false
deriving DecidableEq

/-- `nginxv1.VirtualServerSpec` -/
structure VirtualServerSpec where
  host : String := ""
  tls : Option TLS := none
  gunzip : Bool := false
  externalDNS : ExternalDNS := {}
  dos : String := ""
  policies : List Unit := []
  internalRoute : Bool := false
  httpSnippets : String := ""
  serverSnippets : String := ""
  ingressClass : String := ""
  upstreams : List Upstream := []
  routes : List Route := []
  listener : Option VirtualServerListener := none
deriving DecidableEq

/-- `nginxv1.VirtualServer` -/
structure VirtualServer where
  name : String := ""
  namespace_ : String := ""
  spec : VirtualServerSpec := {}
deriving DecidableEq

/-- `nginxv1.VirtualServerRouteSpec` -/
structure VirtualServerRouteSpec where
  host : String := ""
  upstreams : List Upstream := []
  subroutes : List Route := []
deriving DecidableEq

/-- `nginxv1.VirtualServerRoute` -/
structure VirtualServerRoute where
  name : String := ""
  namespace_ : String := ""
  spec : VirtualServerRouteSpec := {}
deriving DecidableEq

/-- `nginxv1.TransportServerListener` -/
structure TransportServerListener where
  name : String := ""
  protocol : String := ""
deriving DecidableEq

/-- `nginxv1.TransportServerAction` -/
structure TransportServerAction where
  pass : String := ""
deriving DecidableEq

/-- `nginxv1.TransportServerUpstream` -/
structure TransportServerUpstream where
  name : String := ""
  service : String := ""
  port : Nat := 0
deriving DecidableEq

/-- `nginxv1.TransportServerSpec` -/
structure TransportServerSpec where
  listener : TransportServerListener := {}
  host : String := ""
  upstreams : List TransportServerUpstream := []
  action : Option TransportServerAction := none
  tls : Option Unit := none
deriving DecidableEq

/-- `nginxv1.TransportServer` -/
structure TransportServer where
  name : String := ""
  namespace_ : String := ""
  spec : TransportServerSpec := {}
deriving DecidableEq

/-- `nginxv1.Listener` of a GlobalConfiguration -/
structure GlobalConfigurationListener where
  name : String := ""
  port : Int := 0
  protocol : String := ""
deriving DecidableEq

/-- `nginxv1.GlobalConfiguration` -/
structure GlobalConfiguration where
  listeners : List GlobalConfigurationListener := []
deriving DecidableEq

/-! ## Output data model: the Gateway API types

Pointer-valued fields of the Go types are `Option`; fields the engine never
writes are omitted. -/

/-- `gatewayv1.PathMatchType`; `prefixPath` stands for the source constant
`PathMatchPathPrefix`. -/
inductive PathMatchType where
  | exact
  | prefixPath
  | regularExpression
deriving DecidableEq

inductive HeaderMatchType where
  | exact
  | regularExpression
deriving DecidableEq

inductive QueryParamMatchType where
  | exact
  | regularExpression
deriving DecidableEq

structure HTTPPathMatch where
  type : Option PathMatchType := none
  value : Option String := none
deriving DecidableEq

structure HTTPHeaderMatch where
  type : Option HeaderMatchType := none
  name : String := ""
  value : String := ""
deriving DecidableEq

structure HTTPQueryParamMatch where
  type : Option QueryParamMatchType := none
  name : String := ""
  value : String := ""
deriving DecidableEq

structure HTTPRouteMatch where
  path : Option HTTPPathMatch := none
  headers : List HTTPHeaderMatch := []
  queryParams : List HTTPQueryParamMatch := []
deriving DecidableEq

/-- `gatewayv1.HTTPPathModifierType`; `fullPath` is `FullPathHTTPPathModifier`,
`prefixMatch` is `PrefixMatchHTTPPathModifier`. -/
inductive HTTPPathModifierType where
  | fullPath
  | prefixMatch
deriving DecidableEq

structure HTTPPathModifier where
  type : HTTPPathModifierType
  replaceFullPath : Option String := none
  replacePrefixMatch : Option String := none
deriving DecidableEq

structure HTTPRequestRedirectFilter where
  scheme : Option String := none
  hostname : Option String := none
  path : Option HTTPPathModifier := none
  statusCode : Option Int := none
deriving DecidableEq

structure HTTPURLRewriteFilter where
  path : Option HTTPPathModifier := none
deriving DecidableEq

structure HTTPHeader where
  name : String := ""
  value : String := ""
deriving DecidableEq

structure HTTPHeaderFilter where
  set : List HTTPHeader := []
  add : List HTTPHeader := []
  remove : List String := []
deriving DecidableEq

/-- `gatewayv1.HTTPRouteFilterType`; the last two constructors exist in the
Gateway API but are never produced by this engine (they exercise the
`default` branch of the gRPC filter conversion). -/
inductive HTTPRouteFilterType where
  | requestHeaderModifier
  | responseHeaderModifier
  | requestRedirect
  | urlRewrite
  | requestMirror
  | extensionRef
deriving DecidableEq

structure HTTPRouteFilter where
  type : HTTPRouteFilterType
  requestRedirect : Option HTTPRequestRedirectFilter := none
  urlRewrite : Option HTTPURLRewriteFilter := none
  requestHeaderModifier : Option HTTPHeaderFilter := none
  responseHeaderModifier : Option HTTPHeaderFilter := none
deriving DecidableEq

structure BackendObjectReference where
  group : Option String := none
  kind : Option String := none
  name : String := ""
  namespace_ : Option String := none
  port : Option Nat := none
deriving DecidableEq

structure BackendRef where
  backendObjectReference : BackendObjectReference := {}
  weight : Option Int := none
deriving DecidableEq

structure HTTPBackendRef where
  backendRef : BackendRef := {}
  filters : List HTTPRouteFilter := []
deriving DecidableEq

structure HTTPRouteRule where
  matches_ : List HTTPRouteMatch := []
  filters : List HTTPRouteFilter := []
  backendRefs : List HTTPBackendRef := []
deriving DecidableEq

structure GRPCMethodMatch where
  service : Option String := none
  method : Option String := none
deriving DecidableEq

structure GRPCHeaderMatch where
  type : Option HeaderMatchType := none
  name : String := ""
  value : String := ""
deriving DecidableEq

structure GRPCRouteMatch where
  method : Option GRPCMethodMatch := none
  headers : List GRPCHeaderMatch := []
deriving DecidableEq

inductive GRPCRouteFilterType where
  | requestHeaderModifier
  | responseHeaderModifier
deriving DecidableEq

structure GRPCRouteFilter where
  type : GRPCRouteFilterType
  requestHeaderModifier : Option HTTPHeaderFilter := none
  responseHeaderModifier : Option HTTPHeaderFilter := none
deriving DecidableEq

structure GRPCBackendRef where
  backendRef : BackendRef := {}
  filters : List GRPCRouteFilter := []
deriving DecidableEq

structure GRPCRouteRule where
  matches_ : List GRPCRouteMatch := []
  filters : List GRPCRouteFilter := []
  backendRefs : List GRPCBackendRef := []
deriving DecidableEq

structure TypeMeta where
  apiVersion : String := ""
  kind : String := ""
deriving DecidableEq

structure ObjectMeta where
  name : String := ""
  namespace_ : String := ""
  labels : List (String × String) := []
deriving DecidableEq

structure ParentReference where
  name : String := ""
  sectionName : Option String := none
deriving DecidableEq

structure CommonRouteSpec where
  parentRefs : List ParentReference := []
deriving DecidableEq

structure HTTPRouteSpec where
  commonRouteSpec : CommonRouteSpec := {}
  hostnames : List String := []
  rules : List HTTPRouteRule := []
deriving DecidableEq

structure HTTPRoute where
  typeMeta : TypeMeta := {}
  objectMeta : ObjectMeta := {}
  spec : HTTPRouteSpec := {}
deriving DecidableEq

/-- `intermediate.HTTPRouteContext`: the sources wrap each produced HTTPRoute in
a context carrying optional provider-specific IR; only the route itself is
written by this engine. -/
structure HTTPRouteContext where
  httpRoute : HTTPRoute := {}
deriving DecidableEq

structure GRPCRouteSpec where
  commonRouteSpec : CommonRouteSpec := {}
  hostnames : List String := []
  rules : List GRPCRouteRule := []
deriving DecidableEq

structure GRPCRoute where
  typeMeta : TypeMeta := {}
  objectMeta : ObjectMeta := {}
  spec : GRPCRouteSpec := {}
deriving DecidableEq

structure TCPRouteRule where
  backendRefs : List BackendRef := []
deriving DecidableEq

structure TCPRouteSpec where
  commonRouteSpec : CommonRouteSpec := {}
  rules : List TCPRouteRule := []
deriving DecidableEq

structure TCPRoute where
  typeMeta : TypeMeta := {}
  objectMeta : ObjectMeta := {}
  spec : TCPRouteSpec := {}
deriving DecidableEq

structure TLSRouteRule where
  backendRefs : List BackendRef := []
deriving DecidableEq

structure TLSRouteSpec where
  commonRouteSpec : CommonRouteSpec := {}
  hostnames : List String := []
  rules : List TLSRouteRule := []
deriving DecidableEq

structure TLSRoute where
  typeMeta : TypeMeta := {}
  objectMeta : ObjectMeta := {}
  spec : TLSRouteSpec := {}
deriving DecidableEq

structure UDPRouteRule where
  backendRefs : List BackendRef := []
deriving DecidableEq

structure UDPRouteSpec where
  commonRouteSpec : CommonRouteSpec := {}
  rules : List UDPRouteRule := []
deriving DecidableEq

structure UDPRoute where
  typeMeta : TypeMeta := {}
  objectMeta : ObjectMeta := {}
  spec : UDPRouteSpec := {}
deriving DecidableEq

/-- `gatewayv1.Listener` as used by the listener map (name, port, protocol). -/
structure Listener where
  name : String := ""
  port : Int := 0
  protocol : String := ""
deriving DecidableEq

/-! ## Go map model -/

/-- Association-list model of a Go map write `m[k] = v`: overwrite the existing
binding of `k`, or append a new one. -/
def mapSet {κ α : Type} [DecidableEq κ] (m : List (κ × α)) (k : κ) (v : α) :
    List (κ × α) :=
  if m.any (fun p => p.1 = k) then
    m.map (fun p => if p.1 = k then (k, v) else p)
  else
    m ++ [(k, v)]

/-- Association-list model of a Go map read `m[k]` (first binding wins; by the
`mapSet` discipline keys are unique). -/
def mapGet? {κ α : Type} [DecidableEq κ] (m : List (κ × α)) (k : κ) : Option α :=
  (m.find? (fun p => p.1 = k)).map (fun p => p.2)

/-- `maps.Copy(dst, src)`: write every binding of `src` into `dst`. -/
def mapsCopy {κ α : Type} [DecidableEq κ] (dst src : List (κ × α)) : List (κ × α) :=
  src.foldl (fun acc p => mapSet acc p.1 p.2) dst

/-! ## utils.go -/

/-- `findUpstream` (utils): linear search of an upstream by name. -/
def findUpstream (upstreams : List Upstream) (name : String) : Option Upstream :=
  upstreams.find? (fun upstream => upstream.name = name)

/-- The notification-source reference taken from a VirtualServer (`&vs`). -/
def vsRef (vs : VirtualServer) : Option ObjectRef :=
  some { namespace_ := vs.namespace_, name := vs.name }

/-- `addNotification` (utils): append one notification built by
`NewNotification` — modelled as the singleton list the call appends. -/
def addNotification1 (messageType : MessageType) (message : String)
    (obj : Option ObjectRef) : List Notification :=
  [NewNotification messageType message obj]

/-! ## vs_matching.go / vs_actions.go: the Match/Condition Translator -/

/-- Go `strings.HasPrefix` in a kernel-reducible form. -/
def goHasPrefix (s p : String) : Bool := s.take p.length == p

/-- The splitter underlying the `strings.Split` calls of the engine (all use a
one-character separator). -/
def goSplitAux (c : Char) : List Char → List Char → List (List Char)
  | [], acc => [acc.reverse]
  | x :: xs, acc =>
    if x = c then acc.reverse :: goSplitAux c xs [] else goSplitAux c xs (x :: acc)

/-- Go `strings.Split s sep` for a one-character separator. -/
def goSplit (s : String) (c : Char) : List String :=
  (goSplitAux c s.data []).map String.mk

/-- Go `strings.Contains s sub` for a one-character substring. -/
def goContainsChar (s : String) (c : Char) : Bool := s.data.contains c

/-- Go `strings.ToLower` in a kernel-reducible form. -/
def goToLower (s : String) : String := String.mk (s.data.map Char.toLower)

/-- The fixed metacharacter list of `containsRegexPatterns`
(vs_matching.go:177). -/
def regexChars : List String :=
  ["*", "^", "$", "[", "]", "(", ")", ".", "+", "?", "|", "\\"]

/-- `containsRegexPatterns` (vs_matching.go:176-185), the only implementation
present in the sources. The Go condition is, per metacharacter `char`,
`len(value) > 0 && (value[0:1] == char || value[len(value)-1:] == char ||
len(value) > 2 && value[1:len(value)-1] != value)`. -/
def containsRegexPatterns (value : String) : Bool :=
  regexChars.any (fun char =>
    value.length > 0 &&
      (value.take 1 == char || value.takeRight 1 == char ||
        (value.length > 2 && (value.drop 1).dropRight 1 != value)))

/-- The metacharacters escaped by Go `regexp.QuoteMeta`. -/
def goRegexpSpecial : List Char :=
  ['\\', '.', '+', '*', '?', '(', ')', '|', '[', ']', '\x7b', '\x7d', '^', '$']

/-- Go `regexp.QuoteMeta`: every regexp metacharacter is preceded by a
backslash. -/
def quoteMeta (s : String) : String :=
  String.mk (s.data.foldr
    (fun c acc => if goRegexpSpecial.contains c then '\\' :: c :: acc else c :: acc) [])

/-- `createHeaderMatch` (vs_actions.go:319-350): anchored case-insensitive
exact-match regex for non-regex values, pass-through otherwise, negative
lookahead for a leading `!`. -/
def createHeaderMatch (condition : Condition) (vs : VirtualServer) :
    Option HTTPHeaderMatch × List Notification :=
  if condition.header == "" || condition.value == "" then
    (none, addNotification1 .warning "Header condition missing name or value" (vsRef vs))
  else
    let raw := condition.value
    let negate := goHasPrefix raw "!"
    let raw := if negate then raw.drop 1 else raw
    let pattern := raw
    let pattern :=
      if !containsRegexPatterns pattern then "(?i)^" ++ quoteMeta pattern ++ "$" else pattern
    let pattern := if negate then "^(?!" ++ pattern ++ ").*$" else pattern
    (some { type := some .regularExpression, name := condition.header, value := pattern }, [])

/-- `createQueryMatch` (vs_actions.go:353-385): same escaping rule as
`createHeaderMatch`, keyed on the `argument` field. -/
def createQueryMatch (condition : Condition) (vs : VirtualServer) :
    Option HTTPQueryParamMatch × List Notification :=
  if condition.argument == "" || condition.value == "" then
    (none, addNotification1 .warning "Query parameter condition missing name or value" (vsRef vs))
  else
    let raw := condition.value
    let negate := goHasPrefix raw "!"
    let raw := if negate then raw.drop 1 else raw
    let pattern := raw
    let pattern :=
      if !containsRegexPatterns pattern then "(?i)^" ++ quoteMeta pattern ++ "$" else pattern
    let pattern := if negate then "^(?!" ++ pattern ++ ").*$" else pattern
    (some { type := some .regularExpression, name := condition.argument, value := pattern }, [])

/-- `createCookieMatch` (vs_actions.go:388-429): a cookie condition becomes a
regex match on the Cookie header. -/
def createCookieMatch (condition : Condition) (vs : VirtualServer) :
    Option HTTPHeaderMatch × List Notification :=
  if condition.cookie == "" || condition.value == "" then
    (none, addNotification1 .warning "Cookie condition missing name or value" (vsRef vs))
  else
    let raw := condition.value
    let negate := goHasPrefix raw "!"
    let raw := if negate then raw.drop 1 else raw
    let cookieNameValue := condition.cookie ++ "=" ++ raw
    let pattern := cookieNameValue
    let pattern :=
      if !containsRegexPatterns pattern then
        "(?i).*\\b" ++ quoteMeta pattern ++ "\\b.*"
      else
        "(?i).*" ++ pattern ++ ".*"
    let pattern := if negate then "^(?!.*" ++ cookieNameValue ++ ").*$" else pattern
    (some { type := some .regularExpression, name := "Cookie", value := pattern },
      addNotification1 .info "Cookie condition converted to Cookie header match" (vsRef vs))

/-- One step of the `processConditions` loop: dispatch a condition on the first
populated field in the order Header, Argument, Cookie, Variable. -/
def processCondition (vs : VirtualServer)
    (acc : List HTTPHeaderMatch × List HTTPQueryParamMatch × List Notification)
    (condition : Condition) :
    List HTTPHeaderMatch × List HTTPQueryParamMatch × List Notification :=
  let (headerMatches, queryMatches, notifs) := acc
  if condition.header != "" then
    match createHeaderMatch condition vs with
    | (some m, ns) => (headerMatches ++ [m], queryMatches, notifs ++ ns)
    | (none, ns) => (headerMatches, queryMatches, notifs ++ ns)
  else if condition.argument != "" then
    match createQueryMatch condition vs with
    | (some m, ns) => (headerMatches, queryMatches ++ [m], notifs ++ ns)
    | (none, ns) => (headerMatches, queryMatches, notifs ++ ns)
  else if condition.cookie != "" then
    match createCookieMatch condition vs with
    | (some m, ns) => (headerMatches ++ [m], queryMatches, notifs ++ ns)
    | (none, ns) => (headerMatches, queryMatches, notifs ++ ns)
  else if condition.variable_ != "" then
    (headerMatches, queryMatches, notifs ++ addNotification1 .info
      "NGINX variable condition stored in provider-specific IR - not directly supported in Gateway API"
      (vsRef vs))
  else
    (headerMatches, queryMatches, notifs)

/-- `processConditions` (vs_actions.go:284-316): left-to-right translation of a
condition list into header and query-parameter matches. -/
def processConditions (conditions : List Condition) (vs : VirtualServer) :
    List HTTPHeaderMatch × List HTTPQueryParamMatch × List Notification :=
  conditions.foldl (processCondition vs) ([], [], [])

end I2GW

namespace I2GW

/-! ## common/filters and common collector (spec-modelled)

The unified filter factory `filters.NewHTTPRouteFilter` and the
`SliceNotificationCollector` live in packages that are not among the provided
sources; they are modelled from spec §4.3. -/

/-- Modelled from the spec: the URL-rewrite branch of `filters.NewHTTPRouteFilter`
(§4.3): a rewrite value beginning with `/` becomes a FullPath rewrite, an empty
value a PrefixMatch rewrite to `/`, any other value a PrefixMatch rewrite to
that value; each branch emits one matching Info notification. -/
def newURLRewriteFilter (path : String) (vs : VirtualServer) :
    HTTPRouteFilter × List Notification :=
  if goHasPrefix path "/" then
    ({ type := .urlRewrite,
       urlRewrite := some { path := some { type := .fullPath, replaceFullPath := some path } } },
      addNotification1 .info "Path rewrite converted to FullPath replacement" (vsRef vs))
  else if path == "" then
    ({ type := .urlRewrite,
       urlRewrite := some { path := some { type := .prefixMatch, replacePrefixMatch := some "/" } } },
      addNotification1 .info "Empty path rewrite converted to prefix removal" (vsRef vs))
  else
    ({ type := .urlRewrite,
       urlRewrite := some { path := some { type := .prefixMatch, replacePrefixMatch := some path } } },
      addNotification1 .info "Path rewrite converted to prefix replacement" (vsRef vs))

/-- Modelled from the spec: the RequestHeaderModifier branch of
`filters.NewHTTPRouteFilter` (§4.3): each set-header becomes one `set` entry;
no notifications. -/
def newRequestHeaderModifierFilter (setHeaders : List Header) : HTTPRouteFilter :=
  { type := .requestHeaderModifier,
    requestHeaderModifier :=
      some { set := setHeaders.map (fun h => { name := h.name, value := h.value }) } }

/-- Modelled from the spec: the ResponseHeaderModifier branch of
`filters.NewHTTPRouteFilter` (§4.3): set entries plus remove entries;
no notifications. -/
def newResponseHeaderModifierFilter (setHeaders : List Header)
    (removeHeaders : List String) : HTTPRouteFilter :=
  { type := .responseHeaderModifier,
    responseHeaderModifier :=
      some { set := setHeaders.map (fun h => { name := h.name, value := h.value }),
             remove := removeHeaders } }

/-! ## action_converter.go -/

/-- `createPathRewriteFilter` (action_converter.go:80-99). In the source the
`$`-rejection branch returns `nil` before the collector content is merged into
the caller notification list, so that warning is dropped; the embedding
reproduces this. -/
def createPathRewriteFilter (rewritePath : String) (vs : VirtualServer) :
    Option HTTPRouteFilter × List Notification :=
  if goContainsChar rewritePath '$' then
    (none, [])
  else
    let (filter, ns) := newURLRewriteFilter rewritePath vs
    (some filter, ns)

/-- `createRequestHeaderFilter` (action_converter.go:102-133). -/
def createRequestHeaderFilter (requestHeaders : Option ProxyRequestHeaders)
    (vs : VirtualServer) : Option HTTPRouteFilter × List Notification :=
  match requestHeaders with
  | none => (none, [])
  | some rh =>
    let filter := newRequestHeaderModifierFilter rh.set
    let ns :=
      if rh.pass == some false then
        addNotification1 .warning
          "Request header pass=false ignored - complex header filtering not fully supported"
          (vsRef vs)
      else []
    (some filter, ns)

/-- `createResponseHeaderFilter` (action_converter.go:136-172): the collector
receives one warning per added header with `always == false`, then the
factory runs, then one warning if pass/ignore lists are set. -/
def createResponseHeaderFilter (responseHeaders : Option ProxyResponseHeaders)
    (vs : VirtualServer) : Option HTTPRouteFilter × List Notification :=
  match responseHeaders with
  | none => (none, [])
  | some rs =>
    let filtersHeaders : List Header :=
      rs.add.map (fun addHeader => { name := addHeader.name, value := addHeader.value })
    let alwaysWarnings : List Notification :=
      (rs.add.filter (fun addHeader => !addHeader.always)).map (fun _ =>
        NewNotification .warning "always flag is always true in gateway api" (vsRef vs))
    let filter := newResponseHeaderModifierFilter filtersHeaders rs.hide
    let passIgnoreWarnings :=
      if rs.pass.length > 0 || rs.ignore.length > 0 then
        addNotification1 .warning
          "Response header pass/ignore configuration is not supported in Gateway API"
          (vsRef vs)
      else []
    (some filter, alwaysWarnings ++ passIgnoreWarnings)

/-- `handleAdvancedProxyAction` (action_converter.go:32-77): validates the
proxy upstream first (warning and no backend on a missing or unnamed
upstream), then builds rewrite and header filters, then the backend
reference keyed by the upstream NAME (not its service). -/
def handleAdvancedProxyAction (vs : VirtualServer) (action : Action) :
    Option HTTPBackendRef × List HTTPRouteFilter × List Notification :=
  match action.proxy with
  | none => (none, [], [])
  | some proxy =>
    if proxy.upstream == "" then
      (none, [],
        addNotification1 .warning "Proxy action missing upstream reference" (vsRef vs))
    else
      match findUpstream vs.spec.upstreams proxy.upstream with
      | none =>
        (none, [],
          addNotification1 .warning
            ("Upstream \x27" ++ proxy.upstream ++ "\x27 not found for proxy action") (vsRef vs))
      | some upstream =>
        let (rewriteFilter?, n1) :=
          if proxy.rewritePath != "" then createPathRewriteFilter proxy.rewritePath vs
          else (none, [])
        let (requestFilter?, n2) := createRequestHeaderFilter proxy.requestHeaders vs
        let (responseFilter?, n3) := createResponseHeaderFilter proxy.responseHeaders vs
        let filters :=
          (rewriteFilter?.toList) ++ (requestFilter?.toList) ++ (responseFilter?.toList)
        let backendRef : HTTPBackendRef :=
          { backendRef :=
              { backendObjectReference :=
                  { name := proxy.upstream, port := some upstream.port } } }
        (some backendRef, filters, n1 ++ n2 ++ n3)

end I2GW

namespace I2GW

/-! ## part: route_resolver (RouteResolver) -/

/-- `RouteSourceType` -/
inductive RouteSourceType where
  | virtualServer
  | virtualServerRoute
deriving DecidableEq

/-- `RouteSource` -/
structure RouteSource where
  type : RouteSourceType
  namespace_ : String
  name : String
deriving DecidableEq

/-- `ResolvedRoute` -/
structure ResolvedRoute where
  route : Route
  source : RouteSource
  virtualServer : VirtualServer
  upstreams : List Upstream := []
  redirect : Bool := false
deriving DecidableEq

/-- The `routeIndex` built by `NewRouteResolver`: VirtualServerRoutes indexed
by namespaced name (later entries overwrite earlier ones, as in a Go map). -/
def buildRouteIndex (virtualServerRoutes : List VirtualServerRoute) :
    List (NamespacedName × VirtualServerRoute) :=
  virtualServerRoutes.foldl
    (fun idx vsr => mapSet idx { namespace_ := vsr.namespace_, name := vsr.name } vsr) []

/-- `parseVSRReference`: `name` (same namespace) or `namespace/name`. -/
def parseVSRReference (ref : String) (defaultNamespace : String) : NamespacedName :=
  match goSplit ref '/' with
  | [name] => { namespace_ := defaultNamespace, name := name }
  | [ns, name] => { namespace_ := ns, name := name }
  | _ => { namespace_ := defaultNamespace, name := ref }

/-- `types.NamespacedName.String()`: `namespace/name` (used by `%s` formatting). -/
def nnString (k : NamespacedName) : String :=
  k.namespace_ ++ "/" ++ k.name

/-- `resolveRoute`: an empty `route` field yields the inline route unchanged; a
reference is looked up in the index — a miss yields one warning and no routes,
a hit yields one ResolvedRoute per subroute (tagged VirtualServerRoute, with
the fragment upstream list) plus, when at least one route was resolved, one
summary Info notification. The error result is always `none`. -/
def resolveRoute (routeIndex : List (NamespacedName × VirtualServerRoute))
    (route : Route) (vs : VirtualServer) :
    List ResolvedRoute × List Notification × Option String :=
  if route.route == "" then
    ([{ route := route,
        source := { type := .virtualServer, namespace_ := vs.namespace_, name := vs.name },
        virtualServer := vs }], [], none)
  else
    let vsrKey := parseVSRReference route.route vs.namespace_
    match mapGet? routeIndex vsrKey with
    | none =>
      ([],
        [NewNotification .warning
          ("VirtualServerRoute " ++ nnString vsrKey ++ " not found, skipping route")
          (vsRef vs)], none)
    | some vsr =>
      let resolvedRoutes := vsr.spec.subroutes.map (fun vsrRoute =>
        ({ route := vsrRoute,
           source :=
             { type := .virtualServerRoute, namespace_ := vsr.namespace_, name := vsr.name },
           virtualServer := vs,
           upstreams := vsr.spec.upstreams } : ResolvedRoute))
      let notifs :=
        if resolvedRoutes.length > 0 then
          [NewNotification .info
            ("Resolved " ++ toString resolvedRoutes.length ++
              " routes from VirtualServerRoute " ++ nnString vsrKey)
            (vsRef vs)]
        else []
      (resolvedRoutes, notifs, none)

/-- `ResolveRoutesForVirtualServer`: accumulates `resolveRoute` over the
VirtualServer routes (the per-route error is always `none`, so the early
return of the source loop never fires). -/
def ResolveRoutesForVirtualServer (routeIndex : List (NamespacedName × VirtualServerRoute))
    (vs : VirtualServer) : List ResolvedRoute × List Notification × Option String :=
  vs.spec.routes.foldl
    (fun acc route =>
      let (resolved, routeNotifs, _) := resolveRoute routeIndex route vs
      (acc.1 ++ resolved, acc.2.1 ++ routeNotifs, none))
    ([], [], none)

/-! ## part: virtualserver_route_converter — redirect, pass, return, splits -/

/-- The components of a Go `url.URL` read by `parseRedirectURL`. -/
structure GoURL where
  scheme : String := ""
  host : String := ""
  path : String := ""
  rawQuery : String := ""
  fragment : String := ""
deriving DecidableEq

/-- `ParsedURL` -/
structure ParsedURL where
  scheme : String := ""
  hostname : String := ""
  path : String := ""
deriving DecidableEq

/-- `parseRedirectURL`, parameterized by `urlParse`, the behaviour of the Go
standard library `url.Parse` (`none` models a parse error): on error the whole
URL becomes the path; otherwise scheme and host are copied and the path is
recomposed with query and fragment. -/
def parseRedirectURL (urlParse : String → Option GoURL) (redirectURL : String) : ParsedURL :=
  match urlParse redirectURL with
  | none => { path := redirectURL }
  | some u =>
    let path :=
      if u.path != "" || u.rawQuery != "" || u.fragment != "" then
        u.path ++ (if u.rawQuery != "" then "?" ++ u.rawQuery else "")
          ++ (if u.fragment != "" then "#" ++ u.fragment else "")
      else ""
    { scheme := u.scheme, hostname := u.host, path := path }

/-- `handleRedirectAction`: default status 301; scheme/hostname/path set from
the parsed URL when non-empty; explicit code 307 becomes 302, 308 becomes
301, 0 keeps the default, anything else passes through. The Go function
receives the Action and dereferences `action.Redirect`; callers guard
non-nil, so the embedding takes the redirect directly. -/
def handleRedirectAction (urlParse : String → Option GoURL)
    (redirect : ActionRedirect) : HTTPRouteFilter :=
  let rr : HTTPRequestRedirectFilter := { statusCode := some 301 }
  let rr :=
    if redirect.url != "" then
      let parsedURL := parseRedirectURL urlParse redirect.url
      let rr := if parsedURL.scheme != "" then { rr with scheme := some parsedURL.scheme } else rr
      let rr :=
        if parsedURL.hostname != "" then { rr with hostname := some parsedURL.hostname } else rr
      if parsedURL.path != "" then
        { rr with path := some { type := .fullPath, replaceFullPath := some parsedURL.path } }
      else rr
    else rr
  let rr :=
    if redirect.code = 0 then rr
    else if redirect.code = 307 then { rr with statusCode := some 302 }
    else if redirect.code = 308 then { rr with statusCode := some 301 }
    else { rr with statusCode := some redirect.code }
  { type := .requestRedirect, requestRedirect := some rr }

/-- `handlePassAction`: backend reference named after the upstream (kept for
the later gRPC check) with the upstream port, or a warning and no backend
when the upstream is not found. -/
def handlePassAction (vs : VirtualServer) (action : Action) :
    Option HTTPBackendRef × List Notification :=
  match findUpstream vs.spec.upstreams action.pass with
  | some upstream =>
    (some { backendRef :=
        { backendObjectReference := { name := action.pass, port := some upstream.port } } }, [])
  | none =>
    (none,
      addNotification1 .warning
        ("Upstream \x27" ++ action.pass ++ "\x27 not found for route") (vsRef vs))

/-- `handleReturnAction`: a warning only (the Go function receives the Action
and dereferences `action.Return`; callers guard non-nil). -/
def handleReturnAction (vs : VirtualServer) (ret : ActionReturn) : List Notification :=
  addNotification1 .warning
    ("Return action with code " ++ toString ret.code ++
      " not directly supported in Gateway API") (vsRef vs)

/-- One iteration of the `handleTrafficSplits` loop. -/
def trafficSplitStep (urlParse : String → Option GoURL) (vs : VirtualServer)
    (acc : HTTPRouteRule × List Notification) (split : Split) :
    HTTPRouteRule × List Notification :=
  let (rule, notifs) := acc
  match split.action with
  | none => (rule, notifs)
  | some action =>
    if split.weight = 0 then (rule, notifs)
    else if action.pass != "" then
      match handlePassAction vs action with
      | (some backendRef, ns) =>
        ({ rule with backendRefs := rule.backendRefs ++
            [{ backendRef with backendRef := { backendRef.backendRef with weight := some split.weight } }] },
          notifs ++ ns)
      | (none, ns) => (rule, notifs ++ ns)
    else
      match action.redirect with
      | some redirect =>
        let backendRef : HTTPBackendRef :=
          { backendRef := { weight := some split.weight },
            filters := [handleRedirectAction urlParse redirect] }
        ({ rule with backendRefs := rule.backendRefs ++ [backendRef] }, notifs)
      | none =>
        match action.return_ with
        | some ret => (rule, notifs ++ handleReturnAction vs ret)
        | none =>
          let (backendRef?, filters, ns) := handleAdvancedProxyAction vs action
          match backendRef? with
          | some backendRef =>
            let backendRef :=
              { backendRef with backendRef := { backendRef.backendRef with weight := some split.weight } }
            let backendRef :=
              if filters.length > 0 then
                { backendRef with filters := backendRef.filters ++ filters }
              else backendRef
            ({ rule with backendRefs := rule.backendRefs ++ [backendRef] }, notifs ++ ns)
          | none => (rule, notifs ++ ns)

/-- `handleTrafficSplits`: zero-weight or action-less splits are skipped; each
other split contributes one weighted backend reference; one Info notification
closes every non-empty split group. -/
def handleTrafficSplits (urlParse : String → Option GoURL) (vs : VirtualServer)
    (splits : List Split) (rule : HTTPRouteRule) : HTTPRouteRule × List Notification :=
  if splits.length = 0 then (rule, [])
  else
    let (rule, notifs) := splits.foldl (trafficSplitStep urlParse vs) (rule, [])
    (rule, notifs ++
      addNotification1 .info
        "Traffic splitting configuration converted to weighted backend refs" (vsRef vs))

/-- `handleRouteActions`: dispatch on the populated action variant in the order
Pass, Redirect, Return, otherwise AdvancedProxy. -/
def handleRouteActions (urlParse : String → Option GoURL) (vs : VirtualServer)
    (action : Option Action) (rule : HTTPRouteRule) : HTTPRouteRule × List Notification :=
  match action with
  | none => (rule, [])
  | some a =>
    if a.pass != "" then
      match handlePassAction vs a with
      | (some backendRef, ns) => ({ rule with backendRefs := [backendRef] }, ns)
      | (none, ns) => (rule, ns)
    else
      match a.redirect with
      | some redirect =>
        ({ rule with filters := rule.filters ++ [handleRedirectAction urlParse redirect] }, [])
      | none =>
        match a.return_ with
        | some ret => (rule, handleReturnAction vs ret)
        | none =>
          let (backendRef?, filters, ns) := handleAdvancedProxyAction vs a
          let rule :=
            match backendRef? with
            | some backendRef => { rule with backendRefs := [backendRef] }
            | none => rule
          let rule :=
            if filters.length > 0 then { rule with filters := rule.filters ++ filters }
            else rule
          (rule, ns)

end I2GW

namespace I2GW

/-! ## part: upstream_converter (part_002) -/

/-- `UpstreamConfig` (the supported-field record of the current revision). -/
structure UpstreamConfig where
  name : String := ""
  service : String := ""
  port : Nat := 0
  type : String := ""
  tls : UpstreamTLS := {}
deriving DecidableEq

/-- `validateUpstream`: a missing service or zero port fails with one warning. -/
def validateUpstream (upstream : Upstream) (vs : VirtualServer) :
    Bool × List Notification :=
  if upstream.service == "" then
    (false,
      addNotification1 .warning
        ("Upstream \x27" ++ upstream.name ++ "\x27 has no service specified") (vsRef vs))
  else if upstream.port = 0 then
    (false,
      addNotification1 .warning
        ("Upstream \x27" ++ upstream.name ++ "\x27 has no port specified") (vsRef vs))
  else
    (true, [])

/-- One Info notification of `checkUnsupportedUpstreamFields`. -/
def unsupportedFieldNotif (upstreamName field : String) (vs : VirtualServer) : Notification :=
  NewNotification .info
    ("Upstream \x27" ++ upstreamName ++ "\x27: " ++ field ++
      " field is not currently converted to Gateway API") (vsRef vs)

/-- `checkUnsupportedUpstreamFields`: one Info notification per populated
unsupported field, in source order. -/
def checkUnsupportedUpstreamFields (upstream : Upstream) (vs : VirtualServer) :
    List Notification :=
  let un := upstream.name
  (if upstream.lbMethod != "" && upstream.lbMethod != "least_conn" then
    [NewNotification .info
      ("Upstream \x27" ++ un ++ "\x27: LBMethod \x27" ++ upstream.lbMethod ++
        "\x27 will be set to random two least_conn by default") (vsRef vs)]
   else []) ++
  (if upstream.subselector.length > 0 then [unsupportedFieldNotif un "Subselector" vs] else []) ++
  (if upstream.useClusterIP then [unsupportedFieldNotif un "UseClusterIP" vs] else []) ++
  (if upstream.failTimeout != "" then [unsupportedFieldNotif un "FailTimeout" vs] else []) ++
  (if upstream.maxFails.isSome then [unsupportedFieldNotif un "MaxFails" vs] else []) ++
  (if upstream.maxConns.isSome then [unsupportedFieldNotif un "MaxConns" vs] else []) ++
  (if upstream.keepalive.isSome then [unsupportedFieldNotif un "Keepalive" vs] else []) ++
  (if upstream.proxyConnectTimeout != "" then [unsupportedFieldNotif un "ConnectTimeout" vs] else []) ++
  (if upstream.proxyReadTimeout != "" then [unsupportedFieldNotif un "ReadTimeout" vs] else []) ++
  (if upstream.proxySendTimeout != "" then [unsupportedFieldNotif un "SendTimeout" vs] else []) ++
  (if upstream.proxyNextUpstream != "" then [unsupportedFieldNotif un "NextUpstream" vs] else []) ++
  (if upstream.proxyNextUpstreamTimeout != "" then [unsupportedFieldNotif un "NextUpstreamTimeout" vs] else []) ++
  (if upstream.proxyNextUpstreamTries ≠ 0 then [unsupportedFieldNotif un "NextUpstreamTries" vs] else []) ++
  (if upstream.clientMaxBodySize != "" then [unsupportedFieldNotif un "ClientMaxBodySize" vs] else []) ++
  (if upstream.healthCheck.isSome then [unsupportedFieldNotif un "HealthCheck" vs] else []) ++
  (if upstream.slowStart != "" then [unsupportedFieldNotif un "SlowStart" vs] else []) ++
  (if upstream.queue.isSome then [unsupportedFieldNotif un "Queue" vs] else []) ++
  (if upstream.proxyBuffering.isSome then [unsupportedFieldNotif un "Buffering" vs] else []) ++
  (if upstream.proxyBufferSize != "" then [unsupportedFieldNotif un "BufferSize" vs] else []) ++
  (if upstream.ntlm then [unsupportedFieldNotif un "NTLM" vs] else []) ++
  (if upstream.backup != "" then [unsupportedFieldNotif un "Backup" vs] else []) ++
  (if upstream.backupPort.isSome then [unsupportedFieldNotif un "BackupPort" vs] else []) ++
  (if upstream.sessionCookie.isSome then [unsupportedFieldNotif un "SessionCookie" vs] else [])

/-- `populateUpstreamConfig` of the current revision: emits the
unsupported-field notifications, then records the essential fields. -/
def populateUpstreamConfig (upstream : Upstream) (vs : VirtualServer) :
    UpstreamConfig × List Notification :=
  ({ name := upstream.name, service := upstream.service, port := upstream.port,
     type := upstream.type, tls := upstream.tls },
    checkUnsupportedUpstreamFields upstream vs)

/-! ## part: resources (BackendTLSPolicy factory) -/

/-- `gatewayv1alpha2.LocalPolicyTargetReference` -/
structure LocalPolicyTargetReference where
  group : String := ""
  kind : String := ""
  name : String := ""
deriving DecidableEq

/-- `gatewayv1alpha3.BackendTLSPolicy` (validation fields deliberately blank). -/
structure BackendTLSPolicy where
  typeMeta : TypeMeta := {}
  objectMeta : ObjectMeta := {}
  targetRefs : List LocalPolicyTargetReference := []
deriving DecidableEq

/-- `resources.GenerateBackendTLSPolicyName` -/
def GenerateBackendTLSPolicyName (serviceName suffix : String) : String :=
  if suffix != "" then serviceName ++ "-" ++ suffix ++ "-backend-tls"
  else serviceName ++ "-backend-tls"

/-- `resources.CreateBackendTLSPolicy` applied to the options built by
`processUpstreamTLSPolicies` (source label `nginx-virtualserver-tls`, empty
extra labels): the policy plus the manual-configuration warning handed to the
collector. -/
def CreateBackendTLSPolicy (name namespace_ serviceName : String)
    (vs : VirtualServer) : BackendTLSPolicy × List Notification :=
  ({ typeMeta := { apiVersion := "gateway.networking.k8s.io/v1alpha3", kind := "BackendTLSPolicy" },
     objectMeta :=
       { name := name, namespace_ := namespace_,
         labels := [("app.kubernetes.io/managed-by", "ingress2gateway"),
                    ("ingress2gateway.io/source", "nginx-virtualserver-tls")] },
     targetRefs := [{ group := "gateway.networking.k8s.io", kind := "Service", name := serviceName }] },
    [NewNotification .warning
      ("BackendTLSPolicy \x27" ++ name ++
        "\x27 created but requires manual configuration. You must set the \x27validation.hostname\x27 field to match your backend service\x27s TLS certificate hostname, and configure appropriate CA certificates or certificateRefs for TLS verification.")
      (vsRef vs)])

/-- `processUpstreamTLSPolicies`: per valid upstream with TLS enabled, one
BackendTLSPolicy; validation warnings are appended during the loop, the
factory collector content only after it. -/
def processUpstreamTLSPolicies (vs : VirtualServer) :
    List (NamespacedName × BackendTLSPolicy) × List Notification :=
  let step := fun (acc : List (NamespacedName × BackendTLSPolicy) × List Notification × List Notification)
      (upstream : Upstream) =>
    let (policies, loopNotifs, collectorNotifs) := acc
    let (ok, vNotifs) := validateUpstream upstream vs
    if !ok then (policies, loopNotifs ++ vNotifs, collectorNotifs)
    else if upstream.tls.enable then
      let policyName := GenerateBackendTLSPolicyName upstream.service upstream.name
      let policyKey : NamespacedName := { namespace_ := vs.namespace_, name := policyName }
      let (policy, pNotifs) := CreateBackendTLSPolicy policyName vs.namespace_ upstream.service vs
      (mapSet policies policyKey policy, loopNotifs ++ vNotifs, collectorNotifs ++ pNotifs)
    else (policies, loopNotifs ++ vNotifs, collectorNotifs)
  let (policies, loopNotifs, collectorNotifs) := vs.spec.upstreams.foldl step ([], [], [])
  (policies, loopNotifs ++ collectorNotifs)

end I2GW

namespace I2GW

/-! ## part: virtualserver_route_converter — rule construction and pipeline -/

/-- `gatewayListenerKey` (the per-VirtualServer listener attachment record). -/
structure GatewayListenerKey where
  gatewayName : String := ""
  listenerName : String := ""
deriving DecidableEq

/-- The base path match of `convertResolvedRouteToRules`: a `~`-prefixed path
becomes a RegularExpression match, anything else a PathPrefix match. -/
def basePathMatchOf (route : Route) : HTTPRouteMatch :=
  if goHasPrefix route.path "~" then
    { path := some { type := some .regularExpression, value := some route.path } }
  else
    { path := some { type := some .prefixPath, value := some route.path } }

/-- `createMatch`: the base path match extended with the header and
query-parameter matches of the conditions (each only when non-empty). -/
def createMatch (basePathMatch : HTTPRouteMatch) (match_ : Match) (vs : VirtualServer) :
    HTTPRouteMatch × List Notification :=
  if match_.conditions.length > 0 then
    let (headerMatches, queryMatches, ns) := processConditions match_.conditions vs
    let specificMatch := basePathMatch
    let specificMatch :=
      if headerMatches.length > 0 then { specificMatch with headers := headerMatches }
      else specificMatch
    let specificMatch :=
      if queryMatches.length > 0 then { specificMatch with queryParams := queryMatches }
      else specificMatch
    (specificMatch, ns)
  else
    (basePathMatch, [])

/-- One iteration of the match loop of `convertResolvedRouteToRules`: a match
without an action is ignored; a match whose translated conditions give no
header and no query-parameter predicates is skipped (its createMatch
notifications are still appended); otherwise one rule is appended. -/
def matchRuleStep (urlParse : String → Option GoURL) (vs : VirtualServer)
    (basePathMatch : HTTPRouteMatch)
    (acc : List HTTPRouteRule × List Notification) (match_ : Match) :
    List HTTPRouteRule × List Notification :=
  match match_.action with
  | none => acc
  | some _ =>
    let (m, ns0) := createMatch basePathMatch match_ vs
    if m.headers.length == 0 && m.queryParams.length == 0 then
      (acc.1, acc.2 ++ ns0)
    else
      let rule : HTTPRouteRule := { matches_ := [m] }
      let (rule, ns1) := handleRouteActions urlParse vs match_.action rule
      let (rule, ns2) := handleTrafficSplits urlParse vs match_.splits rule
      (acc.1 ++ [rule], acc.2 ++ ns0 ++ ns1 ++ ns2)

/-- The rule contributed by one match entry, when any (not a source function;
used to characterize the match loop). -/
def ruleForMatch (urlParse : String → Option GoURL) (vs : VirtualServer)
    (basePathMatch : HTTPRouteMatch) (match_ : Match) : Option HTTPRouteRule :=
  match match_.action with
  | none => none
  | some _ =>
    let (m, _) := createMatch basePathMatch match_ vs
    if m.headers.length == 0 && m.queryParams.length == 0 then none
    else
      let rule : HTTPRouteRule := { matches_ := [m] }
      let (rule, _) := handleRouteActions urlParse vs match_.action rule
      let (rule, _) := handleTrafficSplits urlParse vs match_.splits rule
      some rule

/-- The catch-all rule of `convertResolvedRouteToRules` (built when the route
carries a top-level action or splits): the base path match only, with the
route-level action and splits applied. -/
def defaultRuleOf (urlParse : String → Option GoURL) (vs : VirtualServer)
    (basePathMatch : HTTPRouteMatch) (route : Route) : HTTPRouteRule :=
  let defaultRule : HTTPRouteRule := { matches_ := [basePathMatch] }
  let (defaultRule, _) := handleRouteActions urlParse vs route.action defaultRule
  let (defaultRule, _) := handleTrafficSplits urlParse vs route.splits defaultRule
  defaultRule

/-- `convertResolvedRouteToRules`: one rule per surviving match entry, in
declaration order, followed by the catch-all rule when the route itself has an
action or splits. -/
def convertResolvedRouteToRules (urlParse : String → Option GoURL)
    (resolvedRoute : ResolvedRoute) : List HTTPRouteRule × List Notification :=
  let route := resolvedRoute.route
  let vs := resolvedRoute.virtualServer
  let basePathMatch := basePathMatchOf route
  let (rules, notifs) := route.matches_.foldl (matchRuleStep urlParse vs basePathMatch) ([], [])
  if route.action.isSome || route.splits.length > 0 then
    let defaultRule : HTTPRouteRule := { matches_ := [basePathMatch] }
    let (defaultRule, n1) := handleRouteActions urlParse vs route.action defaultRule
    let (defaultRule, n2) := handleTrafficSplits urlParse vs route.splits defaultRule
    (rules ++ [defaultRule], notifs ++ n1 ++ n2)
  else
    (rules, notifs)

/-- `isRouteGRPC`: true exactly when some backend reference of the rule names
an upstream whose config is of type `grpc`. -/
def isRouteGRPC (upstreamConfigs : List (String × UpstreamConfig))
    (rule : HTTPRouteRule) : Bool :=
  rule.backendRefs.any (fun backendRef =>
    match mapGet? upstreamConfigs backendRef.backendRef.backendObjectReference.name with
    | some config => config.type == "grpc"
    | none => false)

/-- `convertUpstreamNamesToServiceNames`: rewrite each backend-reference name
to the service of its upstream config, when one exists. -/
def convertUpstreamNamesToServiceNames (upstreamConfigs : List (String × UpstreamConfig))
    (rules : List HTTPRouteRule) : List HTTPRouteRule :=
  rules.map (fun rule =>
    { rule with backendRefs := rule.backendRefs.map (fun backendRef =>
        match mapGet? upstreamConfigs backendRef.backendRef.backendObjectReference.name with
        | some config =>
          { backendRef with backendRef :=
              { backendRef.backendRef with backendObjectReference :=
                  { backendRef.backendRef.backendObjectReference with name := config.service } } }
        | none => backendRef) })

/-- `convertGRPCUpstreamNamesToServiceNames`: the same rewrite on gRPC rules. -/
def convertGRPCUpstreamNamesToServiceNames (upstreamConfigs : List (String × UpstreamConfig))
    (rules : List GRPCRouteRule) : List GRPCRouteRule :=
  rules.map (fun rule =>
    { rule with backendRefs := rule.backendRefs.map (fun backendRef =>
        match mapGet? upstreamConfigs backendRef.backendRef.backendObjectReference.name with
        | some config =>
          { backendRef with backendRef :=
              { backendRef.backendRef with backendObjectReference :=
                  { backendRef.backendRef.backendObjectReference with name := config.service } } }
        | none => backendRef) })

/-- `parseGRPCServiceMethod`: split on the last slash after trimming one
leading slash. -/
def parseGRPCServiceMethod (path : String) : String × String :=
  let path := if goHasPrefix path "/" then path.drop 1 else path
  match (goSplit path '/').reverse with
  | [] => (path, "")
  | [_] => (path, "")
  | method :: restRev => (String.intercalate "/" restRev.reverse, method)

/-- The Go string value of an HTTPRouteFilterType (used by `%s` formatting). -/
def filterTypeString : HTTPRouteFilterType → String
  | .requestHeaderModifier => "RequestHeaderModifier"
  | .responseHeaderModifier => "ResponseHeaderModifier"
  | .requestRedirect => "RequestRedirect"
  | .urlRewrite => "URLRewrite"
  | .requestMirror => "RequestMirror"
  | .extensionRef => "ExtensionRef"

/-- `convertHTTPFiltersToGRPCFilters`: header-modifier filters carry over,
redirect and URL-rewrite filters are dropped with an Info notification,
anything else with a warning. -/
def convertHTTPFiltersToGRPCFilters (vs : VirtualServer)
    (httpFilters : List HTTPRouteFilter) : List GRPCRouteFilter × List Notification :=
  httpFilters.foldl
    (fun acc httpFilter =>
      let (grpcFilters, ns) := acc
      match httpFilter.type with
      | .requestHeaderModifier =>
        match httpFilter.requestHeaderModifier with
        | some m =>
          (grpcFilters ++ [{ type := .requestHeaderModifier, requestHeaderModifier := some m }], ns)
        | none => (grpcFilters, ns)
      | .responseHeaderModifier =>
        match httpFilter.responseHeaderModifier with
        | some m =>
          (grpcFilters ++ [{ type := .responseHeaderModifier, responseHeaderModifier := some m }], ns)
        | none => (grpcFilters, ns)
      | .requestRedirect =>
        (grpcFilters, ns ++
          addNotification1 .info "HTTP redirect filter not applicable to gRPC, skipping" (vsRef vs))
      | .urlRewrite =>
        (grpcFilters, ns ++
          addNotification1 .info "HTTP URL rewrite filter not applicable to gRPC, skipping" (vsRef vs))
      | other =>
        (grpcFilters, ns ++
          addNotification1 .warning
            ("Unknown HTTP filter type " ++ filterTypeString other ++
              " encountered during gRPC conversion") (vsRef vs)))
    ([], [])

/-- `convertHTTPMatchesToGRPCMatches`: the path becomes a gRPC service/method
match, headers carry over, query parameters are dropped. -/
def convertHTTPMatchesToGRPCMatches (httpMatches : List HTTPRouteMatch) :
    List GRPCRouteMatch :=
  httpMatches.map (fun httpMatch =>
    let grpcMatch : GRPCRouteMatch := {}
    let grpcMatch :=
      match httpMatch.path with
      | some p =>
        match p.value with
        | some pathValue =>
          let (service, method) := parseGRPCServiceMethod pathValue
          if service != "" then
            let m : GRPCMethodMatch :=
              { service := some service,
                method := if method != "" then some method else none }
            { grpcMatch with method := some m }
          else grpcMatch
        | none => grpcMatch
      | none => grpcMatch
    if httpMatch.headers.length > 0 then
      { grpcMatch with headers := httpMatch.headers.map (fun h =>
          { type := h.type, name := h.name, value := h.value }) }
    else grpcMatch)

/-- `convertHTTPRuleToGRPCRule`: backend references first (with their filters),
then the rule-level filters, then the matches. -/
def convertHTTPRuleToGRPCRule (vs : VirtualServer) (httpRule : HTTPRouteRule) :
    GRPCRouteRule × List Notification :=
  let (backendRefs, ns1) := httpRule.backendRefs.foldl
    (fun acc httpBackendRef =>
      let (brs, ns) := acc
      let (grpcFilters, ns2) := convertHTTPFiltersToGRPCFilters vs httpBackendRef.filters
      (brs ++ [{ backendRef := httpBackendRef.backendRef, filters := grpcFilters }], ns ++ ns2))
    ([], [])
  let (ruleFilters, ns2) := convertHTTPFiltersToGRPCFilters vs httpRule.filters
  ({ backendRefs := backendRefs, filters := ruleFilters,
     matches_ := convertHTTPMatchesToGRPCMatches httpRule.matches_ }, ns1 ++ ns2)

/-- `createParentRefs`: one parent reference per listener attachment of this
VirtualServer in the shared-gateway map. -/
def createParentRefs (virtualServerMap : List (String × List GatewayListenerKey))
    (vs : VirtualServer) : List ParentReference :=
  ((mapGet? virtualServerMap vs.name).getD []).map (fun listener =>
    { name := listener.gatewayName, sectionName := some listener.listenerName })

/-- `generateHTTPRouteName` (converter method): `<vs>-httproute`. -/
def generateHTTPRouteName (vs : VirtualServer) : String :=
  vs.name ++ "-httproute"

/-- `generateGRPCRouteName` (converter method): `<vs>-grpcroute`. -/
def generateGRPCRouteName (vs : VirtualServer) : String :=
  vs.name ++ "-grpcroute"

/-- `createHTTPRoute` (converter method): the assembled HTTPRoute, its key and
the creation Info notification. -/
def createHTTPRoute (virtualServerMap : List (String × List GatewayListenerKey))
    (vs : VirtualServer) (rules : List HTTPRouteRule) :
    HTTPRouteContext × NamespacedName × List Notification :=
  let httpRouteName := generateHTTPRouteName vs
  let httpRouteKey : NamespacedName := { namespace_ := vs.namespace_, name := httpRouteName }
  let httpRoute : HTTPRoute :=
    { typeMeta := { apiVersion := "gateway.networking.k8s.io/v1", kind := "HTTPRoute" },
      objectMeta :=
        { name := httpRouteName, namespace_ := vs.namespace_,
          labels := [("app.kubernetes.io/managed-by", "ingress2gateway"),
                     ("ingress2gateway.io/source", "nginx-virtualserver"),
                     ("ingress2gateway.io/vs-name", vs.name)] },
      spec :=
        { commonRouteSpec := { parentRefs := createParentRefs virtualServerMap vs },
          hostnames := [vs.spec.host],
          rules := rules } }
  ({ httpRoute := httpRoute }, httpRouteKey,
    addNotification1 .info
      ("Created HTTPRoute \x27" ++ httpRouteName ++ "\x27 with " ++ toString rules.length ++
        " HTTP rules for host \x27" ++ vs.spec.host ++ "\x27") (vsRef vs))

/-- `createGRPCRoute` (converter method). -/
def createGRPCRoute (virtualServerMap : List (String × List GatewayListenerKey))
    (vs : VirtualServer) (rules : List GRPCRouteRule) :
    GRPCRoute × NamespacedName × List Notification :=
  let grpcRouteName := generateGRPCRouteName vs
  let grpcRouteKey : NamespacedName := { namespace_ := vs.namespace_, name := grpcRouteName }
  let grpcRoute : GRPCRoute :=
    { typeMeta := { apiVersion := "gateway.networking.k8s.io/v1", kind := "GRPCRoute" },
      objectMeta :=
        { name := grpcRouteName, namespace_ := vs.namespace_,
          labels := [("app.kubernetes.io/managed-by", "ingress2gateway"),
                     ("ingress2gateway.io/source", "nginx-virtualserver"),
                     ("ingress2gateway.io/vs-name", vs.name)] },
      spec :=
        { commonRouteSpec := { parentRefs := createParentRefs virtualServerMap vs },
          hostnames := [vs.spec.host],
          rules := rules } }
  (grpcRoute, grpcRouteKey,
    addNotification1 .info
      ("Created GRPCRoute \x27" ++ grpcRouteName ++ "\x27 with " ++ toString rules.length ++
        " gRPC rules for host \x27" ++ vs.spec.host ++ "\x27") (vsRef vs))

/-- The HTTP/gRPC partition loop of `ConvertToRoutes` (lines 78-85): rules are
classified by `isRouteGRPC` while their backend references still carry
upstream names; gRPC rules are converted on the spot. -/
def partitionStep (upstreamConfigs : List (String × UpstreamConfig)) (vs : VirtualServer)
    (acc : List HTTPRouteRule × List GRPCRouteRule × List Notification)
    (rule : HTTPRouteRule) :
    List HTTPRouteRule × List GRPCRouteRule × List Notification :=
  let (httpRules, grpcRules, ns) := acc
  if isRouteGRPC upstreamConfigs rule then
    let (grpcRule, ns2) := convertHTTPRuleToGRPCRule vs rule
    (httpRules, grpcRules ++ [grpcRule], ns ++ ns2)
  else
    (httpRules ++ [rule], grpcRules, ns)

def partitionRules (upstreamConfigs : List (String × UpstreamConfig)) (vs : VirtualServer)
    (rules : List HTTPRouteRule) :
    List HTTPRouteRule × List GRPCRouteRule × List Notification :=
  rules.foldl (partitionStep upstreamConfigs vs) ([], [], [])

/-- `ConvertToRoutes` (VirtualServerRouteConverter): resolve, flatten to rules,
partition into HTTP and gRPC (on upstream names), rewrite names to services,
then emit at most one HTTPRoute and at most one GRPCRoute. -/
def ConvertToRoutes (urlParse : String → Option GoURL)
    (routeIndex : List (NamespacedName × VirtualServerRoute))
    (virtualServerMap : List (String × List GatewayListenerKey))
    (upstreamConfigs : List (String × UpstreamConfig)) (vs : VirtualServer) :
    List (NamespacedName × HTTPRouteContext) × List (NamespacedName × GRPCRoute) ×
      List Notification :=
  let (resolvedRoutes, resolveNotifications, err) := ResolveRoutesForVirtualServer routeIndex vs
  match err with
  | some e =>
    ([], [],
      addNotification1 .error
        ("Failed to resolve routes for VirtualServer " ++ vs.name ++ ": " ++ e) (vsRef vs))
  | none =>
    let (rules, ruleNotifs) := resolvedRoutes.foldl
      (fun acc resolvedRoute =>
        let (routeRules, ns) := convertResolvedRouteToRules urlParse resolvedRoute
        (acc.1 ++ routeRules, acc.2 ++ ns))
      ([], [])
    let (httpRules, grpcRules, partitionNotifs) := partitionRules upstreamConfigs vs rules
    let httpRules := convertUpstreamNamesToServiceNames upstreamConfigs httpRules
    let grpcRules := convertGRPCUpstreamNamesToServiceNames upstreamConfigs grpcRules
    let (httpRoutes, httpNotifs) :=
      if httpRules.length > 0 then
        let (httpRoute, httpRouteKey, ns) := createHTTPRoute virtualServerMap vs httpRules
        ([(httpRouteKey, httpRoute)], ns)
      else ([], [])
    let (grpcRoutes, grpcNotifs) :=
      if grpcRules.length > 0 then
        let (grpcRoute, grpcRouteKey, ns) := createGRPCRoute virtualServerMap vs grpcRules
        ([(grpcRouteKey, grpcRoute)], ns)
      else ([], [])
    (httpRoutes, grpcRoutes,
      resolveNotifications ++ ruleNotifs ++ partitionNotifs ++ httpNotifs ++ grpcNotifs)

end I2GW

namespace I2GW

/-! ## transport_server_converter.go -/

/-- A notification as appended by `TransportServerConverter.addNotification`:
a struct literal without a source object. -/
def tsNotification (t : MessageType) (msg : String) : Notification :=
  { type := t, message := msg }

/-- Modelled from the spec: `sanitizeHostname` is called by the converters but
absent from the provided sources; per the listener naming convention (§6,
`http-%d-%s`) it must map a hostname to a label-safe token. Modelled as
replacing every character that is not a letter, digit or dash by a dash. -/
def sanitizeHostname (host : String) : String :=
  String.mk (host.data.map (fun c => if c.isAlphanum || c == '-' then c else '-'))

/-- `getProtocolType`: the declared listener protocol; an empty protocol
yields an Error notification. -/
def getProtocolType (ts : TransportServer) : String × List Notification :=
  if ts.spec.listener.protocol == "" then
    ("",
      [tsNotification .error
        ("TransportServer \x27" ++ ts.name ++ "\x27 has no listener protocol configured")])
  else
    (ts.spec.listener.protocol, [])

/-- `getListenerPort`: the port of the named GlobalConfiguration listener, or
built-in defaults. -/
def getListenerPort (ts : TransportServer) (listenerMap : List (String × Listener)) :
    Int × List Notification :=
  if ts.spec.listener.name == "" then
    (80,
      [tsNotification .error
        ("TransportServer \x27" ++ ts.name ++ "\x27 has no listener name configured")])
  else
    match mapGet? listenerMap ts.spec.listener.name with
    | some listener => (listener.port, [])
    | none =>
      if ts.spec.listener.name == "tls-passthrough" then (443, [])
      else
        let (protocol, ns) := getProtocolType ts
        if protocol == "TCP" then (80, ns)
        else if protocol == "UDP" then (53, ns)
        else (80, ns)

/-- `generateListenerName`: `<protocol>-<port>` with the sanitized host
appended when one is declared; `tls_passthrough` is shortened to `tls`. -/
def generateListenerName (ts : TransportServer) (listenerMap : List (String × Listener)) :
    String × List Notification :=
  let (protocolRaw, n1) := getProtocolType ts
  let protocol := goToLower protocolRaw
  let (port, n2) := getListenerPort ts listenerMap
  let protocol := if protocol == "tls_passthrough" then "tls" else protocol
  let name :=
    if ts.spec.host != "" then
      protocol ++ "-" ++ toString port ++ "-" ++ sanitizeHostname ts.spec.host
    else
      protocol ++ "-" ++ toString port
  (name, n1 ++ n2)

/-- `createParentRefs` (TransportServerConverter): one reference to the shared
namespace gateway and the generated listener name. -/
def tsCreateParentRefs (ts : TransportServer) (listenerMap : List (String × Listener)) :
    List ParentReference × List Notification :=
  let gatewayName := ts.namespace_ ++ "-gateway"
  let (listenerName, ns) := generateListenerName ts listenerMap
  ([{ name := gatewayName, sectionName := some listenerName }], ns)

/-- `createBackendRefs` (TransportServerConverter): the single upstream named
by `action.pass`, resolved to a Service-backed reference; a missing action is
a warning, a missing upstream an error, both with an empty reference list. -/
def tsCreateBackendRefs (ts : TransportServer) : List BackendRef × List Notification :=
  let passOk :=
    match ts.spec.action with
    | none => none
    | some action => if action.pass == "" then none else some action.pass
  match passOk with
  | none =>
    ([],
      [tsNotification .warning
        ("TransportServer \x27" ++ ts.name ++ "\x27 has no action.pass configured")])
  | some upstreamName =>
    match ts.spec.upstreams.find? (fun upstream => upstream.name = upstreamName) with
    | none =>
      ([],
        [tsNotification .error
          ("Upstream \x27" ++ upstreamName ++ "\x27 not found in TransportServer \x27" ++
            ts.name ++ "\x27")])
    | some targetUpstream =>
      ([{ backendObjectReference :=
            { group := some "", kind := some "Service", name := targetUpstream.service,
              namespace_ := some ts.namespace_, port := some targetUpstream.port } }], [])

/-- The shared transport route metadata. -/
def tsObjectMeta (ts : TransportServer) (routeName : String) : ObjectMeta :=
  { name := routeName, namespace_ := ts.namespace_,
    labels := [("app.kubernetes.io/managed-by", "ingress2gateway"),
               ("ingress2gateway.io/source", "nginx-transportserver"),
               ("ingress2gateway.io/ts-name", ts.name)] }

/-- `createTCPRoute` -/
def createTCPRoute (ts : TransportServer) (listenerMap : List (String × Listener)) :
    TCPRoute × NamespacedName × List Notification :=
  let routeName := ts.name ++ "-tcproute"
  let routeKey : NamespacedName := { namespace_ := ts.namespace_, name := routeName }
  let (parentRefs, n1) := tsCreateParentRefs ts listenerMap
  let (backendRefs, n2) := tsCreateBackendRefs ts
  let tcpRoute : TCPRoute :=
    { typeMeta := { apiVersion := "gateway.networking.k8s.io/v1alpha2", kind := "TCPRoute" },
      objectMeta := tsObjectMeta ts routeName,
      spec := { commonRouteSpec := { parentRefs := parentRefs },
                rules := [{ backendRefs := backendRefs }] } }
  (tcpRoute, routeKey,
    n1 ++ n2 ++
      [tsNotification .info
        ("Created TCPRoute \x27" ++ routeName ++ "\x27 for TransportServer \x27" ++
          ts.name ++ "\x27")])

/-- `createTLSRoute`: as TCP, plus the SNI hostname when the TransportServer
declares a host. -/
def createTLSRoute (ts : TransportServer) (listenerMap : List (String × Listener)) :
    TLSRoute × NamespacedName × List Notification :=
  let routeName := ts.name ++ "-tlsroute"
  let routeKey : NamespacedName := { namespace_ := ts.namespace_, name := routeName }
  let (parentRefs, n1) := tsCreateParentRefs ts listenerMap
  let (backendRefs, n2) := tsCreateBackendRefs ts
  let tlsRoute : TLSRoute :=
    { typeMeta := { apiVersion := "gateway.networking.k8s.io/v1alpha2", kind := "TLSRoute" },
      objectMeta := tsObjectMeta ts routeName,
      spec := { commonRouteSpec := { parentRefs := parentRefs },
                hostnames := if ts.spec.host != "" then [ts.spec.host] else [],
                rules := [{ backendRefs := backendRefs }] } }
  (tlsRoute, routeKey,
    n1 ++ n2 ++
      [tsNotification .info
        ("Created TLSRoute \x27" ++ routeName ++ "\x27 for TransportServer \x27" ++
          ts.name ++ "\x27")])

/-- `createUDPRoute` -/
def createUDPRoute (ts : TransportServer) (listenerMap : List (String × Listener)) :
    UDPRoute × NamespacedName × List Notification :=
  let routeName := ts.name ++ "-udproute"
  let routeKey : NamespacedName := { namespace_ := ts.namespace_, name := routeName }
  let (parentRefs, n1) := tsCreateParentRefs ts listenerMap
  let (backendRefs, n2) := tsCreateBackendRefs ts
  let udpRoute : UDPRoute :=
    { typeMeta := { apiVersion := "gateway.networking.k8s.io/v1alpha2", kind := "UDPRoute" },
      objectMeta := tsObjectMeta ts routeName,
      spec := { commonRouteSpec := { parentRefs := parentRefs },
                rules := [{ backendRefs := backendRefs }] } }
  (udpRoute, routeKey,
    n1 ++ n2 ++
      [tsNotification .info
        ("Created UDPRoute \x27" ++ routeName ++ "\x27 for TransportServer \x27" ++
          ts.name ++ "\x27")])

/-- `ConvertToRoutes` (TransportServerConverter): protocol dispatch — `TCP`
gives one TCPRoute (with or without TLS termination), `TLS_PASSTHROUGH` one
TLSRoute, `UDP` one UDPRoute, anything else only an Error notification. -/
def TransportServerConvertToRoutes (ts : TransportServer)
    (listenerMap : List (String × Listener)) :
    List (NamespacedName × TCPRoute) × List (NamespacedName × TLSRoute) ×
      List (NamespacedName × UDPRoute) × List Notification :=
  let (protocol, n0) := getProtocolType ts
  if protocol == "TCP" then
    let (tcpRoute, routeKey, ns) := createTCPRoute ts listenerMap
    ([(routeKey, tcpRoute)], [], [], n0 ++ ns)
  else if protocol == "TLS_PASSTHROUGH" then
    let (tlsRoute, routeKey, ns) := createTLSRoute ts listenerMap
    ([], [(routeKey, tlsRoute)], [], n0 ++ ns)
  else if protocol == "UDP" then
    let (udpRoute, routeKey, ns) := createUDPRoute ts listenerMap
    ([], [], [(routeKey, udpRoute)], n0 ++ ns)
  else
    ([], [], [],
      n0 ++
        [tsNotification .error
          ("Unsupported protocol \x27" ++ protocol ++ "\x27 in TransportServer \x27" ++
            ts.name ++ "\x27")])

end I2GW

namespace I2GW

/-! ## conversion_main.go -/

/-- `checkUnsupportedVirtualServerFields`: one warning per populated
unsupported top-level field, in source order. -/
def checkUnsupportedVirtualServerFields (vs : VirtualServer) : List Notification :=
  (if vs.spec.gunzip then
    addNotification1 .warning
      "VirtualServer field \x27gunzip\x27 is not supported in Gateway API conversion" (vsRef vs)
   else []) ++
  (if vs.spec.externalDNS.enable then
    addNotification1 .warning
      "VirtualServer field \x27externalDNS\x27 is not supported in Gateway API conversion" (vsRef vs)
   else []) ++
  (if vs.spec.dos != "" then
    addNotification1 .warning
      "VirtualServer field \x27dos\x27 is not supported in Gateway API conversion" (vsRef vs)
   else []) ++
  (if vs.spec.policies.length > 0 then
    addNotification1 .warning
      ("VirtualServer field \x27policies\x27 (" ++ toString vs.spec.policies.length ++
        " policies) is not supported in Gateway API conversion") (vsRef vs)
   else []) ++
  (if vs.spec.internalRoute then
    addNotification1 .warning
      "VirtualServer field \x27internalRoute\x27 is not supported in Gateway API conversion" (vsRef vs)
   else []) ++
  (if vs.spec.httpSnippets != "" then
    addNotification1 .warning
      "VirtualServer field \x27http-snippets\x27 is not supported in Gateway API conversion" (vsRef vs)
   else []) ++
  (if vs.spec.serverSnippets != "" then
    addNotification1 .warning
      "VirtualServer field \x27server-snippets\x27 is not supported in Gateway API conversion" (vsRef vs)
   else [])

/-- `createRedirectHTTPRoute`: the TLS-redirect catch-all HTTPRoute attached
to the plain HTTP listener; the status code is copied from the TLS redirect
configuration (the callers guard that TLS and Redirect are present). -/
def createRedirectHTTPRoute (vs : VirtualServer) (listenerMap : List (String × Listener)) :
    HTTPRouteContext :=
  let port : Int :=
    match vs.spec.listener with
    | some listener =>
      if listener.http != "" then
        match mapGet? listenerMap listener.http with
        | some l => l.port
        | none => 0
      else 80
    | none => 80
  let redirectCode : Option Int :=
    match vs.spec.tls with
    | some tls =>
      match tls.redirect with
      | some redirect => redirect.code
      | none => none
    | none => none
  { httpRoute :=
      { typeMeta := { apiVersion := "gateway.networking.k8s.io/v1", kind := "HTTPRoute" },
        objectMeta :=
          { name := vs.name ++ "-redirect", namespace_ := vs.namespace_,
            labels := [("app.kubernetes.io/managed-by", "ingress2gateway"),
                       ("ingress2gateway.io/source", "nginx-virtualserver"),
                       ("ingress2gateway.io/vs-name", vs.name)] },
        spec :=
          { commonRouteSpec :=
              { parentRefs :=
                  [{ name := vs.namespace_ ++ "-gateway",
                     sectionName := some ("http-" ++ toString port ++ "-" ++
                       sanitizeHostname vs.spec.host) }] },
            rules :=
              [{ matches_ := [{ path := some { type := some .prefixPath, value := some "/" } }],
                 filters := [{ type := .requestRedirect,
                               requestRedirect := some { statusCode := redirectCode } }] }] } } }

/-- Modelled from the spec: the per-namespace shared Gateway record produced by
the Gateway Synthesizer (§4.6); the factory implementation is absent from the
provided sources. -/
structure GatewayContext where
  name : String := ""
  namespace_ : String := ""
  gatewayClassName : String := "nginx"
  listeners : List Listener := []
deriving DecidableEq

/-- Modelled from the spec: `NewNamespaceGatewayFactory(...).CreateNamespaceGateway()`
(§4.6, absent from the provided sources): one Gateway named
`<namespace>-gateway` per namespace, an HTTP (and, with TLS, an HTTPS)
listener per VirtualServer host, and the map telling each VirtualServer which
gateway listeners its routes attach to. The model emits no notifications. -/
def CreateNamespaceGateway (namespace_ : String) (vsList : List VirtualServer)
    (_tsList : List TransportServer) (_listenerMap : List (String × Listener)) :
    List (NamespacedName × GatewayContext) ×
      List (String × List GatewayListenerKey) × List Notification :=
  let gatewayName := namespace_ ++ "-gateway"
  let listeners := vsList.foldl
    (fun acc vs =>
      let httpListener : Listener :=
        { name := "http-80-" ++ sanitizeHostname vs.spec.host, port := 80, protocol := "HTTP" }
      match vs.spec.tls with
      | some _ =>
        acc ++ [httpListener,
          { name := "https-443-" ++ sanitizeHostname vs.spec.host, port := 443,
            protocol := "HTTPS" }]
      | none => acc ++ [httpListener])
    []
  let virtualServerMap := vsList.foldl
    (fun acc vs =>
      let keys :=
        match vs.spec.tls with
        | some _ =>
          [{ gatewayName := gatewayName,
             listenerName := "https-443-" ++ sanitizeHostname vs.spec.host : GatewayListenerKey }]
        | none =>
          [{ gatewayName := gatewayName,
             listenerName := "http-80-" ++ sanitizeHostname vs.spec.host : GatewayListenerKey }]
      mapSet acc vs.name keys)
    []
  ([({ namespace_ := namespace_, name := gatewayName },
     { name := gatewayName, namespace_ := namespace_, listeners := listeners })],
    virtualServerMap, [])

/-- The intermediate representation maps returned by the conversion (spec §3):
each map keyed by namespaced name, later writes overwriting earlier ones. -/
structure IR where
  gateways : List (NamespacedName × GatewayContext) := []
  httpRoutes : List (NamespacedName × HTTPRouteContext) := []
  backendTLSPolicies : List (NamespacedName × BackendTLSPolicy) := []
  grpcRoutes : List (NamespacedName × GRPCRoute) := []
  tcpRoutes : List (NamespacedName × TCPRoute) := []
  tlsRoutes : List (NamespacedName × TLSRoute) := []
  udpRoutes : List (NamespacedName × UDPRoute) := []
deriving DecidableEq

/-- Go `append` on a map of slices: `m[k] = append(m[k], v)`. -/
def mapAppend {κ α : Type} [DecidableEq κ] (m : List (κ × List α)) (k : κ) (v : α) :
    List (κ × List α) :=
  mapSet m k ((mapGet? m k).getD [] ++ [v])

/-- The per-VirtualServer body of the namespace loop of `CRDsToGatewayIR`
(lines 119-155): unsupported-field check, TLS-redirect route, upstream-config
construction, route conversion, BackendTLSPolicy pass. -/
def processVirtualServer (urlParse : String → Option GoURL)
    (routeIndex : List (NamespacedName × VirtualServerRoute))
    (virtualServerMap : List (String × List GatewayListenerKey))
    (listenerMap : List (String × Listener))
    (acc : (List (NamespacedName × HTTPRouteContext)) ×
      (List (NamespacedName × GRPCRoute)) ×
      (List (NamespacedName × BackendTLSPolicy)) × List Notification)
    (vs : VirtualServer) :
    (List (NamespacedName × HTTPRouteContext)) ×
      (List (NamespacedName × GRPCRoute)) ×
      (List (NamespacedName × BackendTLSPolicy)) × List Notification :=
  let (httpRouteMap, grpcRouteMap, backendTLSPoliciesMap, notifs) := acc
  let notifs := notifs ++ checkUnsupportedVirtualServerFields vs
  let httpRouteMap :=
    match vs.spec.tls with
    | some tls =>
      match tls.redirect with
      | some redirect =>
        if redirect.enable then
          mapSet httpRouteMap { namespace_ := vs.namespace_, name := vs.name ++ "-redirect" }
            (createRedirectHTTPRoute vs listenerMap)
        else httpRouteMap
      | none => httpRouteMap
    | none => httpRouteMap
  let (upstreamConfigs, notifs) := vs.spec.upstreams.foldl
    (fun acc upstream =>
      let (configs, ns) := acc
      let (ok, vNotifs) := validateUpstream upstream vs
      if ok then
        let (config, pNotifs) := populateUpstreamConfig upstream vs
        (mapSet configs upstream.name config, ns ++ vNotifs ++ pNotifs)
      else
        (configs, ns ++ vNotifs))
    ([], notifs)
  let (httpRoutes, grpcRoutes, cNotifs) :=
    ConvertToRoutes urlParse routeIndex virtualServerMap upstreamConfigs vs
  let httpRouteMap := mapsCopy httpRouteMap httpRoutes
  let grpcRouteMap := mapsCopy grpcRouteMap grpcRoutes
  let notifs := notifs ++ cNotifs
  let (backendTLSPolicies, pNotifs) := processUpstreamTLSPolicies vs
  let backendTLSPoliciesMap := mapsCopy backendTLSPoliciesMap backendTLSPolicies
  (httpRouteMap, grpcRouteMap, backendTLSPoliciesMap, notifs ++ pNotifs)

/-- The per-TransportServer body of the namespace loop of `CRDsToGatewayIR`
(lines 158-183): listener validation then protocol dispatch. -/
def processTransportServer (listenerMap : List (String × Listener))
    (acc : (List (NamespacedName × TCPRoute)) × (List (NamespacedName × TLSRoute)) ×
      (List (NamespacedName × UDPRoute)) × List Notification)
    (ts : TransportServer) :
    (List (NamespacedName × TCPRoute)) × (List (NamespacedName × TLSRoute)) ×
      (List (NamespacedName × UDPRoute)) × List Notification :=
  let (tcpRouteMap, tlsRouteMap, udpRouteMap, notifs) := acc
  if ts.spec.listener.name == "" || ts.spec.listener.protocol == "" then
    (tcpRouteMap, tlsRouteMap, udpRouteMap, notifs ++
      [tsNotification .warning
        ("TransportServer \x27" ++ ts.name ++
          "\x27 skipped: listener field is required but not specified")])
  else
    match mapGet? listenerMap ts.spec.listener.name with
    | none =>
      (tcpRouteMap, tlsRouteMap, udpRouteMap, notifs ++
        [tsNotification .warning
          ("TransportServer \x27" ++ ts.name ++ "\x27 skipped: listener \x27" ++
            ts.spec.listener.name ++ "\x27 not found in GlobalConfiguration")])
    | some _ =>
      let (tcpRoutes, tlsRoutes, udpRoutes, tNotifs) :=
        TransportServerConvertToRoutes ts listenerMap
      (mapsCopy tcpRouteMap tcpRoutes, mapsCopy tlsRouteMap tlsRoutes,
        mapsCopy udpRouteMap udpRoutes, notifs ++ tNotifs)

/-- `CRDsToGatewayIR`, parameterized (next to the `url.Parse` model) by
`nsOrder`, the order in which Go enumerates the keys of the `allNamespaces`
map: the Go `for namespace := range allNamespaces` loop iterates in an
unspecified, run-dependent order, and every run corresponds to some
permutation of the key set. All other map iterations of the source only write
into maps, so `nsOrder` is the only order left free by the Go semantics. -/
def CRDsToGatewayIR (urlParse : String → Option GoURL) (nsOrder : List String)
    (virtualServers : List VirtualServer)
    (virtualServerRoutes : List VirtualServerRoute)
    (transportServers : List TransportServer)
    (globalConfiguration : Option GlobalConfiguration) :
    IR × List Notification × List String :=
  let routeIndex := buildRouteIndex virtualServerRoutes
  let (validVirtualServers, notificationList) := virtualServers.foldl
    (fun acc vs =>
      let (valid, ns) := acc
      if vs.spec.host == "" then
        (valid, ns ++
          addNotification1 .warning "VirtualServer has no host specified, skipping" (vsRef vs))
      else
        (valid ++ [vs], ns))
    ([], [])
  if validVirtualServers.length = 0 && transportServers.length = 0 then
    ({}, notificationList, [])
  else
    let namespaceVSMap := validVirtualServers.foldl
      (fun m vs => mapAppend m vs.namespace_ vs) []
    let namespaceTSMap := transportServers.foldl
      (fun m ts => mapAppend m ts.namespace_ ts) []
    let listenerMap :=
      match globalConfiguration with
      | some gc =>
        gc.listeners.foldl
          (fun m l =>
            mapSet m l.name ({ name := l.name, port := l.port, protocol := l.protocol } : Listener))
          []
      | none => []
    let step := fun acc (namespace_ : String) =>
      let (gatewayMap, httpRouteMap, backendTLSPoliciesMap, grpcRouteMap,
           tcpRouteMap, tlsRouteMap, udpRouteMap, notifs) := acc
      let vsListForNamespace := (mapGet? namespaceVSMap namespace_).getD []
      let tsListForNamespace := (mapGet? namespaceTSMap namespace_).getD []
      let (gateways, virtualServerMap, gNotifs) :=
        CreateNamespaceGateway namespace_ vsListForNamespace tsListForNamespace listenerMap
      let gatewayMap := mapsCopy gatewayMap gateways
      let notifs := notifs ++ gNotifs
      let (httpRouteMap, grpcRouteMap, backendTLSPoliciesMap, notifs) :=
        vsListForNamespace.foldl
          (processVirtualServer urlParse routeIndex virtualServerMap listenerMap)
          (httpRouteMap, grpcRouteMap, backendTLSPoliciesMap, notifs)
      let (tcpRouteMap, tlsRouteMap, udpRouteMap, notifs) :=
        tsListForNamespace.foldl (processTransportServer listenerMap)
          (tcpRouteMap, tlsRouteMap, udpRouteMap, notifs)
      (gatewayMap, httpRouteMap, backendTLSPoliciesMap, grpcRouteMap,
        tcpRouteMap, tlsRouteMap, udpRouteMap, notifs)
    let (gatewayMap, httpRouteMap, backendTLSPoliciesMap, grpcRouteMap,
         tcpRouteMap, tlsRouteMap, udpRouteMap, notifs) :=
      nsOrder.foldl step ([], [], [], [], [], [], [], notificationList)
    ({ gateways := gatewayMap, httpRoutes := httpRouteMap,
       backendTLSPolicies := backendTLSPoliciesMap, grpcRoutes := grpcRouteMap,
       tcpRoutes := tcpRouteMap, tlsRoutes := tlsRouteMap, udpRoutes := udpRouteMap },
      notifs, [])

/-- The key list of the `allNamespaces` map: VirtualServer namespaces first,
then TransportServer namespaces not already present (Go map insertion keeps
one entry per key; the key SET is what an iteration enumerates). -/
def allNamespacesKeys (virtualServers : List VirtualServer)
    (transportServers : List TransportServer) : List String :=
  let validVS := virtualServers.filter (fun vs => vs.spec.host != "")
  let vsNamespaces := (validVS.map (fun vs => vs.namespace_)).dedup
  let tsNamespaces := (transportServers.map (fun ts => ts.namespace_)).dedup
  vsNamespaces ++ tsNamespaces.filter (fun ns => ¬ vsNamespaces.contains ns)

end I2GW

namespace I2GW

/-! ## Claim inputs and shared auxiliaries -/

/-- A stub for the `url.Parse` behaviour (used by closed evaluations whose
inputs carry no redirect URL). -/
def urlParseStub : String → Option GoURL := fun _ => none

/-- Determinism counterexample input: a VirtualServer in namespace `a` whose
single route passes to an undeclared upstream. -/
def vsNamespaceA : VirtualServer :=
  { name := "vs-a", namespace_ := "a",
    spec := { host := "a.example.com",
              routes := [{ path := "/", action := some { pass := "ua" } }] } }

/-- Determinism counterexample input: the same shape in namespace `b`. -/
def vsNamespaceB : VirtualServer :=
  { name := "vs-b", namespace_ := "b",
    spec := { host := "b.example.com",
              routes := [{ path := "/", action := some { pass := "ub" } }] } }

/-- Resolver-claim input: the owning VirtualServer. -/
def vsOwner : VirtualServer :=
  { name := "web", namespace_ := "default", spec := { host := "example.com" } }

/-- Resolver-claim input: a referenced VirtualServerRoute with no subroutes. -/
def vsrNoSubroutes : VirtualServerRoute :=
  { name := "shared-routes", namespace_ := "auth" }

/-- Resolver-claim input: a referenced VirtualServerRoute with two subroutes. -/
def vsrTwoSubroutes : VirtualServerRoute :=
  { name := "shared-routes", namespace_ := "auth",
    spec := { upstreams := [{ name := "auth-upstream", service := "auth-svc", port := 8080 }],
              subroutes := [{ path := "/login", action := some { pass := "auth-upstream" } },
                            { path := "/logout", action := some { pass := "auth-upstream" } }] } }

/-! ## C1 -/

/-- C1: the claim fails on the code. The value `abc` contains none of the
metacharacters `* ^ $ [ ] ( ) . + ? | \` and has no leading `!`, yet
`createHeaderMatch` and `createQueryMatch` emit the raw pattern `abc` rather
than the claimed `(?i)^abc$`: the disjunct
`len(value) > 2 && value[1:len(value)-1] != value` of `containsRegexPatterns`
holds for every value longer than two characters, so such values are treated
as already-regex and passed through unescaped and unanchored. -/
theorem createHeaderMatch_literal_value_not_wrapped :
    (∀ c ∈ "abc".data, c ∉ ['*', '^', '$', '[', ']', '(', ')', '.', '+', '?', '|', '\\']) ∧
    goHasPrefix "abc" "!" = false ∧
    createHeaderMatch { header := "x-api-version", value := "abc" } {} =
      (some { type := some .regularExpression, name := "x-api-version", value := "abc" }, []) ∧
    createQueryMatch { argument := "version", value := "abc" } {} =
      (some { type := some .regularExpression, name := "version", value := "abc" }, []) ∧
    ("abc" : String) ≠ "(?i)^" ++ quoteMeta "abc" ++ "$" := by
  decide

/-! ## C2 -/

/-- C2: the claim fails on the code. `["a", "b"]` and `["b", "a"]` enumerate
the same `allNamespaces` key set, so each is a possible iteration order of the
`for namespace := range allNamespaces` loop of a run; the two runs produce
differently ordered notification lists. -/
theorem CRDsToGatewayIR_notifications_depend_on_namespace_order :
    allNamespacesKeys [vsNamespaceA, vsNamespaceB] [] = ["a", "b"] ∧
    (["b", "a"] : List String).Perm (allNamespacesKeys [vsNamespaceA, vsNamespaceB] []) ∧
    (CRDsToGatewayIR urlParseStub ["a", "b"] [vsNamespaceA, vsNamespaceB] [] [] none).2.1 ≠
      (CRDsToGatewayIR urlParseStub ["b", "a"] [vsNamespaceA, vsNamespaceB] [] [] none).2.1 := by
  refine ⟨by decide, by decide, by decide⟩

/-! ## C3 -/

/-- C3: `handleRedirectAction` always produces a RequestRedirect filter whose
status code is 302 for a declared 307, 301 for a declared 308, 301 for an
absent (zero) code, and the declared code itself otherwise — independently of
the redirect URL and of how `url.Parse` behaves on it. -/
theorem handleRedirectAction_status_codes (urlParse : String → Option GoURL)
    (redirect : ActionRedirect) :
    ((handleRedirectAction urlParse redirect).requestRedirect).map (fun rr => rr.statusCode) =
      some (some (if redirect.code = 307 then 302
        else if redirect.code = 308 then 301
        else if redirect.code = 0 then 301
        else redirect.code)) := by
  unfold handleRedirectAction
  dsimp only
  split_ifs <;> simp_all

end I2GW

namespace I2GW

/-! ## C4 -/

/-- C4: the claim fails on the code at a fragment with zero subroutes. The
reference is non-empty and the referenced VirtualServerRoute exists, yet the
resolver emits NO notification at all (the summary Info is guarded by
`len(resolvedRoutes) > 0`), while the claim demands one Info notification. -/
theorem resolveRoute_no_info_for_empty_fragment :
    (({ route := "auth/shared-routes" } : Route).route ≠ "") ∧
    mapGet? (buildRouteIndex [vsrNoSubroutes])
        (parseVSRReference "auth/shared-routes" "default") = some vsrNoSubroutes ∧
    vsrNoSubroutes.spec.subroutes = [] ∧
    resolveRoute (buildRouteIndex [vsrNoSubroutes]) { route := "auth/shared-routes" } vsOwner =
      ([], [], none) := by
  decide

/-- C4 (amended): for a route with a non-empty reference the resolver returns
a nil error; a missing referenced VirtualServerRoute yields exactly one
warning and no resolved routes; an existing one yields one ResolvedRoute per
subroute — tagged VirtualServerRoute and carrying the fragment upstream
list — plus one summary Info notification IF the fragment has at least one
subroute (and no notification for an empty fragment). -/
theorem resolveRoute_referenced_spec
    (routeIndex : List (NamespacedName × VirtualServerRoute))
    (route : Route) (vs : VirtualServer) (h : route.route ≠ "") :
    (resolveRoute routeIndex route vs).2.2 = none ∧
    (mapGet? routeIndex (parseVSRReference route.route vs.namespace_) = none →
      (resolveRoute routeIndex route vs).1 = [] ∧
      (resolveRoute routeIndex route vs).2.1 =
        [NewNotification .warning
          ("VirtualServerRoute " ++ nnString (parseVSRReference route.route vs.namespace_) ++
            " not found, skipping route") (vsRef vs)]) ∧
    (∀ vsr, mapGet? routeIndex (parseVSRReference route.route vs.namespace_) = some vsr →
      (resolveRoute routeIndex route vs).1 =
        vsr.spec.subroutes.map (fun vsrRoute =>
          ({ route := vsrRoute,
             source := { type := .virtualServerRoute, namespace_ := vsr.namespace_,
                         name := vsr.name },
             virtualServer := vs,
             upstreams := vsr.spec.upstreams } : ResolvedRoute)) ∧
      (vsr.spec.subroutes.length > 0 →
        (resolveRoute routeIndex route vs).2.1 =
          [NewNotification .info
            ("Resolved " ++ toString vsr.spec.subroutes.length ++
              " routes from VirtualServerRoute " ++
              nnString (parseVSRReference route.route vs.namespace_)) (vsRef vs)]) ∧
      (vsr.spec.subroutes = [] → (resolveRoute routeIndex route vs).2.1 = [])) := by
  have hb : (route.route == "") = false := by
    simpa using h
  unfold resolveRoute
  rw [hb]
  simp only [Bool.false_eq_true, if_false]
  cases hidx : mapGet? routeIndex (parseVSRReference route.route vs.namespace_) with
  | none => simp
  | some vsr =>
    refine ⟨rfl, by simp, ?_⟩
    intro vsr2 hv2
    obtain rfl : vsr = vsr2 := Option.some.inj hv2
    refine ⟨by simp, ?_, ?_⟩
    · intro hpos
      have hne : vsr.spec.subroutes ≠ [] := by
        intro hc
        rw [hc] at hpos
        simp at hpos
      simp [List.length_map, List.length_pos, hne]
    · intro hempty
      simp [hempty]

/-- C4 witness: the cross-namespace reference `auth/shared-routes` resolved
against a fragment with two subroutes. -/
theorem resolveRoute_referenced_spec_witness :
    (resolveRoute (buildRouteIndex [vsrTwoSubroutes])
        ({ route := "auth/shared-routes" } : Route) vsOwner).2.2 = none ∧
    (resolveRoute (buildRouteIndex [vsrTwoSubroutes])
        ({ route := "auth/shared-routes" } : Route) vsOwner).1.length = 2 := by
  have h := resolveRoute_referenced_spec (buildRouteIndex [vsrTwoSubroutes])
    ({ route := "auth/shared-routes" } : Route) vsOwner (by decide)
  refine ⟨h.1, ?_⟩
  have h2 := (h.2.2 vsrTwoSubroutes (by decide)).1
  rw [h2]
  decide

end I2GW

namespace I2GW

/-! ## C5 / C10 infrastructure -/

/-- A traffic-split iteration never touches the matches of the rule. -/
lemma trafficSplitStep_matches (urlParse : String → Option GoURL) (vs : VirtualServer)
    (acc : HTTPRouteRule × List Notification) (split : Split) :
    ((trafficSplitStep urlParse vs acc split).1).matches_ = (acc.1).matches_ := by
  obtain ⟨rule, notifs⟩ := acc
  unfold trafficSplitStep
  rcases split.action with _ | action
  · rfl
  · dsimp only
    by_cases h1 : split.weight = 0
    · rw [if_pos h1]
    · rw [if_neg h1]
      by_cases h2 : (action.pass != "") = true
      · rw [if_pos h2]
        rcases handlePassAction vs action with ⟨b, ns⟩
        rcases b with _ | b <;> rfl
      · rw [if_neg h2]
        rcases action.redirect with _ | redirect
        · rcases action.return_ with _ | ret
          · rcases hap : handleAdvancedProxyAction vs action with ⟨b, fs, ns⟩
            dsimp only
            rcases b with _ | b <;> rfl
          · rfl
        · rfl

/-- The traffic-split fold never touches the matches of the rule. -/
lemma foldl_trafficSplitStep_matches (urlParse : String → Option GoURL) (vs : VirtualServer) :
    ∀ (splits : List Split) (acc : HTTPRouteRule × List Notification),
      (((splits.foldl (trafficSplitStep urlParse vs) acc)).1).matches_ = (acc.1).matches_
  | [], _ => rfl
  | s :: ss, acc => by
    rw [List.foldl_cons, foldl_trafficSplitStep_matches urlParse vs ss _,
      trafficSplitStep_matches]

/-- `handleTrafficSplits` never touches the matches of the rule. -/
lemma handleTrafficSplits_matches (urlParse : String → Option GoURL) (vs : VirtualServer)
    (splits : List Split) (rule : HTTPRouteRule) :
    ((handleTrafficSplits urlParse vs splits rule).1).matches_ = rule.matches_ := by
  unfold handleTrafficSplits
  split_ifs
  · rfl
  · rcases hf : splits.foldl (trafficSplitStep urlParse vs) (rule, []) with ⟨rule2, ns⟩
    have := foldl_trafficSplitStep_matches urlParse vs splits (rule, [])
    rw [hf] at this
    simpa using this

/-- `handleRouteActions` never touches the matches of the rule. -/
lemma handleRouteActions_matches (urlParse : String → Option GoURL) (vs : VirtualServer)
    (action : Option Action) (rule : HTTPRouteRule) :
    ((handleRouteActions urlParse vs action rule).1).matches_ = rule.matches_ := by
  unfold handleRouteActions
  rcases action with _ | a
  · rfl
  · dsimp only
    by_cases h1 : (a.pass != "") = true
    · rw [if_pos h1]
      rcases handlePassAction vs a with ⟨b, ns⟩
      rcases b with _ | b <;> rfl
    · rw [if_neg h1]
      rcases a.redirect with _ | redirect
      · rcases a.return_ with _ | ret
        · rcases hap : handleAdvancedProxyAction vs a with ⟨b, fs, ns⟩
          dsimp only
          rcases b with _ | b <;>
            first
              | rfl
              | (dsimp only; split_ifs <;> rfl)
        · rfl
      · rfl

/-- The match loop of `convertResolvedRouteToRules` appends exactly the rules
`ruleForMatch` yields, in declaration order. -/
lemma foldl_matchRuleStep (urlParse : String → Option GoURL) (vs : VirtualServer)
    (bpm : HTTPRouteMatch) :
    ∀ (ms : List Match) (acc : List HTTPRouteRule × List Notification),
      (ms.foldl (matchRuleStep urlParse vs bpm) acc).1 =
        acc.1 ++ ms.filterMap (ruleForMatch urlParse vs bpm)
  | [], acc => by simp
  | m :: ms, acc => by
    rw [List.foldl_cons, List.filterMap_cons]
    rcases ha : m.action with _ | a
    · have hstep : matchRuleStep urlParse vs bpm acc m = acc := by
        unfold matchRuleStep; rw [ha]
      have hrule : ruleForMatch urlParse vs bpm m = none := by
        unfold ruleForMatch; rw [ha]
      rw [hstep, hrule, foldl_matchRuleStep urlParse vs bpm ms acc]
    · rcases hcm : createMatch bpm m vs with ⟨gm, cns⟩
      by_cases hskip : (gm.headers.length == 0 && gm.queryParams.length == 0) = true
      · have hstep : matchRuleStep urlParse vs bpm acc m = (acc.1, acc.2 ++ cns) := by
          unfold matchRuleStep; rw [ha, hcm]; simp [hskip]
        have hrule : ruleForMatch urlParse vs bpm m = none := by
          unfold ruleForMatch; rw [ha, hcm]; simp [hskip]
        rw [hstep, hrule, foldl_matchRuleStep urlParse vs bpm ms _]
      · rcases hra : handleRouteActions urlParse vs m.action { matches_ := [gm] } with ⟨rule1, ns1⟩
        rcases hts : handleTrafficSplits urlParse vs m.splits rule1 with ⟨rule2, ns2⟩
        have hstep : matchRuleStep urlParse vs bpm acc m =
            (acc.1 ++ [rule2], acc.2 ++ cns ++ ns1 ++ ns2) := by
          unfold matchRuleStep
          rw [ha]
          dsimp only
          rw [hcm]
          dsimp only
          rw [if_neg hskip]
          rw [show m.action = some a from ha] at hra
          rw [hra, hts]
        have hrule : ruleForMatch urlParse vs bpm m = some rule2 := by
          unfold ruleForMatch
          rw [ha]
          dsimp only
          rw [hcm]
          dsimp only
          rw [if_neg hskip]
          rw [show m.action = some a from ha] at hra
          rw [hra, hts]
        rw [hstep, hrule, foldl_matchRuleStep urlParse vs bpm ms _]
        simp

/-- The rule list of `convertResolvedRouteToRules` in closed form: the
filterMap of the match entries, in declaration order, followed by the
catch-all rule exactly when the route carries an action or splits. -/
lemma convertResolvedRouteToRules_rules (urlParse : String → Option GoURL)
    (rr : ResolvedRoute) :
    (convertResolvedRouteToRules urlParse rr).1 =
      rr.route.matches_.filterMap
        (ruleForMatch urlParse rr.virtualServer (basePathMatchOf rr.route)) ++
      (if rr.route.action.isSome || rr.route.splits.length > 0 then
        [defaultRuleOf urlParse rr.virtualServer (basePathMatchOf rr.route) rr.route]
       else []) := by
  have hfold := foldl_matchRuleStep urlParse rr.virtualServer (basePathMatchOf rr.route)
    rr.route.matches_ ([], [])
  simp only [List.nil_append] at hfold
  unfold convertResolvedRouteToRules defaultRuleOf
  dsimp only
  split_ifs with hcond <;> simp [hfold]

end I2GW

namespace I2GW

/-! ## C5 -/

/-- C5: the emitted rules of a resolved route are exactly the rules of its
match entries, in declaration order (a filterMap neither reorders nor
re-sorts), followed — exactly when the route carries a top-level action or
splits — by one final catch-all rule whose match list is the base path match
alone. -/
theorem convertResolvedRouteToRules_declaration_order (urlParse : String → Option GoURL)
    (rr : ResolvedRoute) :
    (convertResolvedRouteToRules urlParse rr).1 =
      rr.route.matches_.filterMap
        (ruleForMatch urlParse rr.virtualServer (basePathMatchOf rr.route)) ++
      (if rr.route.action.isSome || rr.route.splits.length > 0 then
        [defaultRuleOf urlParse rr.virtualServer (basePathMatchOf rr.route) rr.route]
       else []) ∧
    (defaultRuleOf urlParse rr.virtualServer (basePathMatchOf rr.route) rr.route).matches_ =
      [basePathMatchOf rr.route] := by
  refine ⟨convertResolvedRouteToRules_rules urlParse rr, ?_⟩
  unfold defaultRuleOf
  dsimp only
  rw [handleTrafficSplits_matches, handleRouteActions_matches]

/-! ## C10 -/

/-- C10: a match entry with an action whose conditions yield no header match
and no query-parameter match contributes no rule: the rule list of the route
with that entry equals the rule list of the route without it. -/
theorem skipped_match_contributes_no_rule (urlParse : String → Option GoURL)
    (rr : ResolvedRoute) (pre post : List Match) (m : Match)
    (ha : m.action.isSome = true)
    (hh : ((createMatch (basePathMatchOf rr.route) m rr.virtualServer).1).headers = [])
    (hq : ((createMatch (basePathMatchOf rr.route) m rr.virtualServer).1).queryParams = []) :
    (convertResolvedRouteToRules urlParse
        { rr with route := { rr.route with matches_ := pre ++ m :: post } }).1 =
      (convertResolvedRouteToRules urlParse
        { rr with route := { rr.route with matches_ := pre ++ post } }).1 := by
  have hnone : ruleForMatch urlParse rr.virtualServer (basePathMatchOf rr.route) m = none := by
    rcases hma : m.action with _ | a
    · rw [hma] at ha
      simp at ha
    · unfold ruleForMatch
      rw [hma]
      dsimp only
      rcases hcm : createMatch (basePathMatchOf rr.route) m rr.virtualServer with ⟨gm, cns⟩
      rw [hcm] at hh hq
      dsimp only at hh hq
      simp [hh, hq]
  rw [convertResolvedRouteToRules_rules, convertResolvedRouteToRules_rules]
  have hbase1 : ∀ (ms : List Match),
      basePathMatchOf { rr.route with matches_ := ms } = basePathMatchOf rr.route :=
    fun _ => rfl
  have hdef1 : ∀ (ms : List Match),
      defaultRuleOf urlParse rr.virtualServer (basePathMatchOf rr.route)
        { rr.route with matches_ := ms } =
      defaultRuleOf urlParse rr.virtualServer (basePathMatchOf rr.route) rr.route :=
    fun _ => rfl
  simp only [hbase1, hdef1]
  rw [List.filterMap_append, List.filterMap_append, List.filterMap_cons, hnone]

/-- C10 witness: a match entry whose only condition is a Variable condition
(no header/query predicate results) is dropped from the rule list. -/
theorem skipped_match_contributes_no_rule_witness :
    (convertResolvedRouteToRules urlParseStub
        { route := { path := "/",
                     matches_ := [] ++
                       ({ conditions := [{ variable_ := "request_method", value := "POST" }],
                          action := some { pass := "u" } } : Match) :: [] },
          source := { type := .virtualServer, namespace_ := "default", name := "web" },
          virtualServer := vsOwner }).1 =
      (convertResolvedRouteToRules urlParseStub
        { route := { path := "/", matches_ := [] ++ [] },
          source := { type := .virtualServer, namespace_ := "default", name := "web" },
          virtualServer := vsOwner }).1 :=
  skipped_match_contributes_no_rule urlParseStub
    { route := { path := "/" },
      source := { type := .virtualServer, namespace_ := "default", name := "web" },
      virtualServer := vsOwner }
    [] []
    { conditions := [{ variable_ := "request_method", value := "POST" }],
      action := some { pass := "u" } }
    (by decide) (by decide) (by decide)

/-! ## C6 -/

/-- C6: a pass action or an advanced-proxy action naming an upstream that is
not declared by the owning VirtualServer produces no backend reference and
exactly one warning notification. -/
theorem missing_upstream_no_backend (vs : VirtualServer) (action : Action)
    (proxy : ActionProxy) :
    (action.pass ≠ "" →
      findUpstream vs.spec.upstreams action.pass = none →
      handlePassAction vs action =
        (none,
          [NewNotification .warning
            ("Upstream \x27" ++ action.pass ++ "\x27 not found for route") (vsRef vs)])) ∧
    (action.proxy = some proxy →
      proxy.upstream ≠ "" →
      findUpstream vs.spec.upstreams proxy.upstream = none →
      handleAdvancedProxyAction vs action =
        (none, [],
          [NewNotification .warning
            ("Upstream \x27" ++ proxy.upstream ++ "\x27 not found for proxy action")
            (vsRef vs)])) := by
  constructor
  · intro _ hfind
    simp [handlePassAction, hfind, addNotification1, NewNotification]
  · intro hproxy hup hfind
    have hb : (proxy.upstream == "") = false := by simpa using hup
    simp [handleAdvancedProxyAction, hproxy, hb, hfind, addNotification1, NewNotification]

/-- C6 witness: both action forms against a VirtualServer with no upstreams. -/
theorem missing_upstream_no_backend_witness :
    handlePassAction vsOwner { pass := "missing" } =
      (none,
        [NewNotification .warning "Upstream \x27missing\x27 not found for route"
          (vsRef vsOwner)]) ∧
    handleAdvancedProxyAction vsOwner { proxy := some { upstream := "absent" } } =
      (none, [],
        [NewNotification .warning "Upstream \x27absent\x27 not found for proxy action"
          (vsRef vsOwner)]) :=
  ⟨(missing_upstream_no_backend vsOwner { pass := "missing" } { upstream := "absent" }).1
      (by decide) (by decide),
   (missing_upstream_no_backend vsOwner { proxy := some { upstream := "absent" } }
      { upstream := "absent" }).2 (by decide) (by decide) (by decide)⟩

end I2GW

namespace I2GW

/-! ## C7 -/

/-- C7: a single VirtualServer with an empty host — whatever routes and
upstreams it declares — produces the empty IR (zero Gateways, zero
HTTPRoutes) and exactly one warning notification. -/
theorem empty_host_virtualserver_skipped (urlParse : String → Option GoURL)
    (nsOrder : List String) (name namespace_ : String)
    (routes : List Route) (upstreams : List Upstream)
    (virtualServerRoutes : List VirtualServerRoute)
    (globalConfiguration : Option GlobalConfiguration) :
    CRDsToGatewayIR urlParse nsOrder
        [{ name := name, namespace_ := namespace_,
           spec := { host := "", routes := routes, upstreams := upstreams } }]
        virtualServerRoutes [] globalConfiguration =
      ({}, [NewNotification .warning "VirtualServer has no host specified, skipping"
          (some { namespace_ := namespace_, name := name })], []) := by
  unfold CRDsToGatewayIR
  simp [vsRef, addNotification1]

/-! ## C8 -/

/-- C8: for a TransportServer whose non-empty listener name is present in the
merged listener map, the converter emits exactly one TCPRoute for protocol
`TCP`, exactly one TLSRoute for `TLS_PASSTHROUGH` (with the host as its SNI
hostname exactly when one is declared), exactly one UDPRoute for `UDP`, and
for any other declared protocol no route object and exactly one Error
notification. -/
theorem transport_protocol_dispatch (ts : TransportServer)
    (listenerMap : List (String × Listener))
    (hname : ts.spec.listener.name ≠ "")
    (hfound : (mapGet? listenerMap ts.spec.listener.name).isSome = true) :
    (ts.spec.listener.protocol = "TCP" →
      (TransportServerConvertToRoutes ts listenerMap).1.length = 1 ∧
      (TransportServerConvertToRoutes ts listenerMap).2.1 = [] ∧
      (TransportServerConvertToRoutes ts listenerMap).2.2.1 = []) ∧
    (ts.spec.listener.protocol = "TLS_PASSTHROUGH" →
      (TransportServerConvertToRoutes ts listenerMap).1 = [] ∧
      (TransportServerConvertToRoutes ts listenerMap).2.1.length = 1 ∧
      (TransportServerConvertToRoutes ts listenerMap).2.2.1 = [] ∧
      ∀ p ∈ (TransportServerConvertToRoutes ts listenerMap).2.1,
        p.2.spec.hostnames = if ts.spec.host != "" then [ts.spec.host] else []) ∧
    (ts.spec.listener.protocol = "UDP" →
      (TransportServerConvertToRoutes ts listenerMap).1 = [] ∧
      (TransportServerConvertToRoutes ts listenerMap).2.1 = [] ∧
      (TransportServerConvertToRoutes ts listenerMap).2.2.1.length = 1) ∧
    (ts.spec.listener.protocol ∉ (["TCP", "TLS_PASSTHROUGH", "UDP"] : List String) →
      ts.spec.listener.protocol ≠ "" →
      (TransportServerConvertToRoutes ts listenerMap).1 = [] ∧
      (TransportServerConvertToRoutes ts listenerMap).2.1 = [] ∧
      (TransportServerConvertToRoutes ts listenerMap).2.2.1 = [] ∧
      (TransportServerConvertToRoutes ts listenerMap).2.2.2 =
        [tsNotification .error
          ("Unsupported protocol \x27" ++ ts.spec.listener.protocol ++
            "\x27 in TransportServer \x27" ++ ts.name ++ "\x27")]) := by
  refine ⟨?_, ?_, ?_, ?_⟩
  · intro hp
    simp [TransportServerConvertToRoutes, getProtocolType, hp]
  · intro hp
    refine ⟨?_, ?_, ?_, ?_⟩ <;>
      simp [TransportServerConvertToRoutes, getProtocolType, hp, createTLSRoute]
  · intro hp
    simp [TransportServerConvertToRoutes, getProtocolType, hp]
  · intro hp hne
    have h1 : ts.spec.listener.protocol ≠ "TCP" := by intro h; exact hp (by simp [h])
    have h2 : ts.spec.listener.protocol ≠ "TLS_PASSTHROUGH" := by
      intro h; exact hp (by simp [h])
    have h3 : ts.spec.listener.protocol ≠ "UDP" := by intro h; exact hp (by simp [h])
    simp [TransportServerConvertToRoutes, getProtocolType, hne, h1, h2, h3]

/-- C8 witness: a TLS-passthrough TransportServer with a declared host and a
listener present in the map. -/
theorem transport_protocol_dispatch_witness :
    (TransportServerConvertToRoutes
        { name := "secure-db", namespace_ := "default",
          spec := { listener := { name := "tls-listener", protocol := "TLS_PASSTHROUGH" },
                    host := "db.example.com",
                    upstreams := [{ name := "db", service := "db-svc", port := 5432 }],
                    action := some { pass := "db" } } }
        [("tls-listener", { name := "tls-listener", port := 5432, protocol := "TLS" })]).2.1.length
      = 1 :=
  ((transport_protocol_dispatch
      { name := "secure-db", namespace_ := "default",
        spec := { listener := { name := "tls-listener", protocol := "TLS_PASSTHROUGH" },
                  host := "db.example.com",
                  upstreams := [{ name := "db", service := "db-svc", port := 5432 }],
                  action := some { pass := "db" } } }
      [("tls-listener", { name := "tls-listener", port := 5432, protocol := "TLS" })]
      (by decide) (by decide)).2.1 rfl).2.1

end I2GW

namespace I2GW

/-! ## C9 infrastructure -/

/-- The resolver error channel is always nil. -/
lemma ResolveRoutesForVirtualServer_err_none
    (routeIndex : List (NamespacedName × VirtualServerRoute)) (vs : VirtualServer) :
    (ResolveRoutesForVirtualServer routeIndex vs).2.2 = none := by
  unfold ResolveRoutesForVirtualServer
  have haux : ∀ (l : List Route) (acc : List ResolvedRoute × List Notification × Option String),
      acc.2.2 = none →
      (l.foldl (fun acc route =>
        let (resolved, routeNotifs, _) := resolveRoute routeIndex route vs
        (acc.1 ++ resolved, acc.2.1 ++ routeNotifs, none)) acc).2.2 = none := by
    intro l
    induction l with
    | nil => intro acc h; exact h
    | cons r rs ih =>
      intro acc _
      rw [List.foldl_cons]
      exact ih _ rfl
  exact haux _ _ rfl

/-- The first component of the rule-accumulating fold of `ConvertToRoutes`. -/
lemma rulesFold_fst (urlParse : String → Option GoURL) :
    ∀ (l : List ResolvedRoute) (acc : List HTTPRouteRule × List Notification),
      (l.foldl (fun acc resolvedRoute =>
        let (routeRules, ns) := convertResolvedRouteToRules urlParse resolvedRoute
        (acc.1 ++ routeRules, acc.2 ++ ns)) acc).1 =
      l.foldl (fun a rr => a ++ (convertResolvedRouteToRules urlParse rr).1) acc.1
  | [], _ => rfl
  | rr :: l, acc => by
    rw [List.foldl_cons, List.foldl_cons]
    exact rulesFold_fst urlParse l _

/-- The flattened pre-partition rule list of one VirtualServer: every resolved
route contributes its rules, in order, with backend references still carrying
upstream names. -/
def flattenedRules (urlParse : String → Option GoURL)
    (routeIndex : List (NamespacedName × VirtualServerRoute)) (vs : VirtualServer) :
    List HTTPRouteRule :=
  ((ResolveRoutesForVirtualServer routeIndex vs).1).foldl
    (fun a rr => a ++ (convertResolvedRouteToRules urlParse rr).1) []

/-- The partition fold keeps non-gRPC rules on the HTTP side (in order) and
maps gRPC-classified rules through the gRPC conversion (in order). -/
lemma partitionRules_characterization (upstreamConfigs : List (String × UpstreamConfig))
    (vs : VirtualServer) :
    ∀ (rules : List HTTPRouteRule)
      (acc : List HTTPRouteRule × List GRPCRouteRule × List Notification),
      (rules.foldl (partitionStep upstreamConfigs vs) acc).1 =
        acc.1 ++ rules.filter (fun r => !(isRouteGRPC upstreamConfigs r)) ∧
      (rules.foldl (partitionStep upstreamConfigs vs) acc).2.1 =
        acc.2.1 ++ (rules.filter (fun r => isRouteGRPC upstreamConfigs r)).map
          (fun r => (convertHTTPRuleToGRPCRule vs r).1)
  | [], acc => by simp
  | rule :: rules, acc => by
    rw [List.foldl_cons, List.filter_cons, List.filter_cons]
    obtain ⟨ih1, ih2⟩ :=
      partitionRules_characterization upstreamConfigs vs rules
        (partitionStep upstreamConfigs vs acc rule)
    by_cases hg : isRouteGRPC upstreamConfigs rule = true
    · have hstep : partitionStep upstreamConfigs vs acc rule =
          (acc.1, acc.2.1 ++ [(convertHTTPRuleToGRPCRule vs rule).1],
            acc.2.2 ++ (convertHTTPRuleToGRPCRule vs rule).2) := by
        unfold partitionStep
        rcases hc : convertHTTPRuleToGRPCRule vs rule with ⟨g, ns2⟩
        simp [hg, hc]
      rw [hstep] at ih1 ih2
      refine ⟨?_, ?_⟩
      · rw [hstep, ih1]; simp [hg]
      · rw [hstep, ih2]; simp [hg]
    · have hstep : partitionStep upstreamConfigs vs acc rule =
          (acc.1 ++ [rule], acc.2.1, acc.2.2) := by
        unfold partitionStep
        simp [hg]
      rw [hstep] at ih1 ih2
      refine ⟨?_, ?_⟩
      · rw [hstep, ih1]; simp [hg]
      · rw [hstep, ih2]; simp [hg]

/-- `isRouteGRPC` in logical form: some backend reference names an upstream
whose config is typed `grpc`. -/
lemma isRouteGRPC_iff (upstreamConfigs : List (String × UpstreamConfig))
    (rule : HTTPRouteRule) :
    isRouteGRPC upstreamConfigs rule = true ↔
      ∃ b ∈ rule.backendRefs, ∃ config,
        mapGet? upstreamConfigs b.backendRef.backendObjectReference.name = some config ∧
        config.type = "grpc" := by
  unfold isRouteGRPC
  rw [List.any_eq_true]
  constructor
  · rintro ⟨b, hb, hpred⟩
    refine ⟨b, hb, ?_⟩
    cases hm : mapGet? upstreamConfigs b.backendRef.backendObjectReference.name with
    | none => rw [hm] at hpred; simp at hpred
    | some config =>
      rw [hm] at hpred
      simp only [beq_iff_eq] at hpred
      exact ⟨config, rfl, hpred⟩
  · rintro ⟨b, hb, config, hm, ht⟩
    refine ⟨b, hb, ?_⟩
    rw [hm]
    simp [ht]

end I2GW

namespace I2GW

/-! ## C9 -/

/-- C9: a rule is classified gRPC exactly when one of its backend references
names an upstream whose config has type `grpc`; the emitted HTTPRoute rules
are the non-gRPC part of the pre-rewrite flattened rules with the
upstream-to-service name rewrite applied afterwards, and the emitted
GRPCRoute rules are the gRPC part converted and then rewritten — so the
classification keys on the original upstream names. -/
theorem grpc_partition_on_upstream_names (urlParse : String → Option GoURL)
    (routeIndex : List (NamespacedName × VirtualServerRoute))
    (virtualServerMap : List (String × List GatewayListenerKey))
    (upstreamConfigs : List (String × UpstreamConfig)) (vs : VirtualServer) :
    (∀ rule : HTTPRouteRule, isRouteGRPC upstreamConfigs rule = true ↔
      ∃ b ∈ rule.backendRefs, ∃ config,
        mapGet? upstreamConfigs b.backendRef.backendObjectReference.name = some config ∧
        config.type = "grpc") ∧
    (∀ p ∈ (ConvertToRoutes urlParse routeIndex virtualServerMap upstreamConfigs vs).1,
      p.2.httpRoute.spec.rules =
        convertUpstreamNamesToServiceNames upstreamConfigs
          ((flattenedRules urlParse routeIndex vs).filter
            (fun r => !(isRouteGRPC upstreamConfigs r)))) ∧
    (∀ p ∈ (ConvertToRoutes urlParse routeIndex virtualServerMap upstreamConfigs vs).2.1,
      p.2.spec.rules =
        convertGRPCUpstreamNamesToServiceNames upstreamConfigs
          (((flattenedRules urlParse routeIndex vs).filter
            (fun r => isRouteGRPC upstreamConfigs r)).map
            (fun r => (convertHTTPRuleToGRPCRule vs r).1))) := by
  refine ⟨isRouteGRPC_iff upstreamConfigs, ?_, ?_⟩ <;>
  · rcases hres : ResolveRoutesForVirtualServer routeIndex vs with ⟨resolved, rnotifs, err⟩
    have herr := ResolveRoutesForVirtualServer_err_none routeIndex vs
    rw [hres] at herr
    dsimp only at herr
    subst herr
    have hrules : (resolved.foldl (fun acc resolvedRoute =>
        let (routeRules, ns) := convertResolvedRouteToRules urlParse resolvedRoute
        (acc.1 ++ routeRules, acc.2 ++ ns)) ([], [])).1 =
        flattenedRules urlParse routeIndex vs := by
      rw [rulesFold_fst]
      unfold flattenedRules
      rw [hres]
    have hpart := partitionRules_characterization upstreamConfigs vs
      ((resolved.foldl (fun acc resolvedRoute =>
        let (routeRules, ns) := convertResolvedRouteToRules urlParse resolvedRoute
        (acc.1 ++ routeRules, acc.2 ++ ns)) ([], [])).1) ([], [], [])
    rw [hrules] at hpart
    unfold ConvertToRoutes
    rw [hres]
    dsimp only
    unfold partitionRules
    rw [hrules]
    simp only [hpart.1, hpart.2]
    dsimp only [List.nil_append]
    split_ifs <;> intro p hp <;>
      simp only [List.mem_singleton, List.not_mem_nil] at hp <;>
      subst hp <;>
      simp [createHTTPRoute, createGRPCRoute]

end I2GW

namespace I2GW

/-- C9 witness: a rule whose backend reference carries the upstream name
`grpc-up` (not the service name) is classified gRPC against a config map
typing that upstream `grpc`. -/
theorem grpc_partition_on_upstream_names_witness :
    isRouteGRPC
        [("grpc-up", { name := "grpc-up", service := "grpc-svc", port := 50051, type := "grpc" })]
        { backendRefs :=
            [{ backendRef := { backendObjectReference := { name := "grpc-up", port := some 50051 } } }] }
      = true :=
  ((grpc_partition_on_upstream_names urlParseStub [] []
      [("grpc-up", { name := "grpc-up", service := "grpc-svc", port := 50051, type := "grpc" })]
      vsOwner).1
    { backendRefs :=
        [{ backendRef := { backendObjectReference := { name := "grpc-up", port := some 50051 } } }] }).mpr
    ⟨{ backendRef := { backendObjectReference := { name := "grpc-up", port := some 50051 } } },
      by decide,
      { name := "grpc-up", service := "grpc-svc", port := 50051, type := "grpc" },
      by decide, rfl⟩

end I2GW
